import Mathlib

set_option linter.unusedSectionVars false

/-!
Verification of the similarity-search and ranking subsystem of the
RayAIShopper backend (`backend/app/services/vector_service.py`,
`backend/app/services/recommendation_service.py`,
`backend/app/services/similarity_service.py`).

Modelling conventions:
* Python floats are idealised as an abstract linearly ordered field `α`
  (instantiated with `ℚ` for concrete evaluations and with `ℝ` where real
  square roots are involved).
* Python dict-shaped product rows become the structure `ProductData`;
  the Pydantic `ProductItem` response model becomes `ProductItem`.
* Python truthiness is preserved: an empty string for `gender_filter`
  and an empty list for `article_type_filter` mean "no filter", exactly
  as in the source.
* The FAISS index (`self.index.search`) is an external library; its
  output — a list of (distance, row index) pairs — is passed to the
  model of `_faiss_search` as an argument.
* Python's builtin `hash` (used only for the mock store location) is an
  external function passed as an argument `hashFn`.
-/

section Model

variable {α : Type} [LinearOrderedField α]

/-- A catalog row, as read from the styles CSV (plus the optional
`embedding` attached by the embedding-generation step). -/
structure ProductData (α : Type) where
  id : String
  productDisplayName : String
  masterCategory : String
  subCategory : String
  articleType : String
  baseColour : String
  gender : String
  season : String
  usage : String
  embedding : Option (List α)
deriving DecidableEq

/-- The response model `ProductItem` (`app/models/responses.py`), as
built by `VectorSearchService._create_product_item`. -/
structure ProductItem (α : Type) where
  id : String
  name : String
  category : String
  subcategory : String
  article_type : String
  color : String
  gender : String
  season : String
  usage : String
  image_url : String
  similarity_score : α
  store_location : Option String
deriving DecidableEq

/-- `settings.github_images_base_url` (a fixed configuration string). -/
def github_images_base_url : String :=
  "https://raw.githubusercontent.com/rory-hayes/RayAIShopper/main/images"

/-- Source: `VectorSearchService._get_store_location`.  Python's builtin
string `hash` is external; it is passed in as `hashFn`. -/
def get_store_location (hashFn : String → Nat) (product_id : String) :
    Option String :=
  let locations := ["A1-B2", "C3-D4", "E5-F6", "G7-H8", "I9-J10"]
  locations.get? (hashFn product_id % locations.length)

/-- Source: `VectorSearchService._create_product_item`. -/
def create_product_item (hashFn : String → Nat) (product_data : ProductData α)
    (similarity_score : α) : ProductItem α :=
  { id := product_data.id
    name := product_data.productDisplayName
    category := product_data.masterCategory
    subcategory := product_data.subCategory
    article_type := product_data.articleType
    color := product_data.baseColour
    gender := product_data.gender
    season := product_data.season
    usage := product_data.usage
    image_url := github_images_base_url ++ "/" ++ product_data.id ++ ".jpg"
    similarity_score := similarity_score
    store_location := get_store_location hashFn product_data.id }

/-- The gender-filter test of `_faiss_search` / `_embedding_similarity_search`
/ `_keyword_similarity_search`: the record is kept unless a (truthy,
i.e. nonempty) `gender_filter` is supplied and the record's gender
differs from it (`if gender_filter and product.get('gender','') != gender_filter: continue`). -/
def genderPass (gender_filter : String) (p : ProductData α) : Bool :=
  !(gender_filter ≠ "" && p.gender ≠ gender_filter)

/-- The article-type-filter test: the record is kept unless a (truthy,
i.e. nonempty) `article_type_filter` list is supplied and the record's
`articleType` is not a member
(`if article_type_filter and product.get('articleType','') not in article_type_filter: continue`). -/
def articlePass (article_type_filter : List String) (p : ProductData α) : Bool :=
  !(article_type_filter ≠ [] && p.articleType ∉ article_type_filter)

end Model

section StableSort

variable {α : Type} [LinearOrder α] {β : Type}

/-- Stable insertion (descending by `f`): the inserted element `x` goes
in front of the first already-placed element whose key is ≤ its own.
This models the behaviour of Python's stable `list.sort(key=..., reverse=True)`. -/
def insertDesc (f : β → α) (x : β) : List β → List β
  | [] => [x]
  | y :: ys => if f y ≤ f x then x :: y :: ys else y :: insertDesc f x ys

/-- Stable descending sort by key `f`, modelling Python's
`list.sort(key=..., reverse=True)` (Timsort is stable, and `reverse=True`
preserves the original order of elements with equal keys). -/
def sortDesc (f : β → α) : List β → List β
  | [] => []
  | x :: xs => insertDesc f x (sortDesc f xs)

end StableSort

section Strategies

variable {α : Type} [LinearOrderedField α]

instance : Inhabited (ProductData α) :=
  ⟨{ id := "", productDisplayName := "", masterCategory := "", subCategory := ""
     articleType := "", baseColour := "", gender := "", season := "", usage := ""
     embedding := none }⟩

/-- Contiguous-sublist test on character lists (structural recursion,
so that concrete instances reduce). -/
def containsAux (needle : List Char) : List Char → Bool
  | [] => needle.isEmpty
  | c :: cs => needle.isPrefixOf (c :: cs) || containsAux needle cs

/-- Python's `term in text` substring test. -/
def strContains (text term : String) : Bool :=
  containsAux term.data text.data

/-- Python's `str.lower()` (character-wise lowering, the model of the
library routine). -/
def pyToLower (s : String) : String :=
  String.mk (s.data.map Char.toLower)

/-- Accumulator loop for whitespace splitting. -/
def splitWsAux : List Char → List Char → List (List Char)
  | [], acc => if acc.isEmpty then [] else [acc.reverse]
  | c :: cs, acc =>
      if c.isWhitespace then
        if acc.isEmpty then splitWsAux cs []
        else acc.reverse :: splitWsAux cs []
      else splitWsAux cs (c :: acc)

/-- Python's `str.split()` with no argument: split on whitespace runs,
dropping empty pieces. -/
def pySplit (s : String) : List String :=
  (splitWsAux s.data []).map String.mk

/-- Python's `' '.join(fields)` (the model of the library routine). -/
def pyJoin (sep : String) : List String → String
  | [] => ""
  | [x] => x
  | x :: xs => x ++ sep ++ pyJoin sep xs

/-- Source: `VectorSearchService._calculate_text_similarity`.  Weighted
keyword-hit scoring with gender and season/occasion bonuses, capped at 1. -/
def calculate_text_similarity (product_data : ProductData α)
    (search_terms : List String) : α :=
  let searchable_fields := [product_data.productDisplayName,
    product_data.masterCategory, product_data.subCategory,
    product_data.articleType, product_data.baseColour, product_data.gender,
    product_data.season, product_data.usage]
  let product_text := pyToLower (pyJoin " " searchable_fields)
  let termScore : α → String → α := fun score term =>
    if strContains product_text term then
      if strContains (pyToLower product_data.productDisplayName) term then score + 3/10
      else if strContains (pyToLower product_data.articleType) term then score + 1/4
      else if strContains (pyToLower product_data.baseColour) term then score + 1/5
      else if strContains (pyToLower product_data.usage) term then score + 3/20
      else score + 1/10
    else score
  let score1 := search_terms.foldl termScore 0
  let score2 :=
    if search_terms.any (fun t => decide (t ∈ ["men", "man", "male"])) then
      (if pyToLower product_data.gender ∈ ["men", "male"] then score1 + 1/5 else score1)
    else if search_terms.any (fun t => decide (t ∈ ["women", "woman", "female"])) then
      (if pyToLower product_data.gender ∈ ["women", "female"] then score1 + 1/5 else score1)
    else score1
  let season_terms : List String :=
    ["summer", "winter", "spring", "fall", "casual", "formal", "party", "beach", "pool"]
  let seasonScore : α → String → α := fun score term =>
    if term ∈ season_terms then
      if strContains (pyToLower product_data.season) term
          || strContains (pyToLower product_data.usage) term then score + 3/20
      else score
    else score
  let score3 := search_terms.foldl seasonScore score2
  min score3 1

/-- Source: `VectorSearchService._embedding_similarity_search` (Mode B).
`sim` stands for the bound method `self.cosine_similarity`. -/
def embedding_similarity_search (hashFn : String → Nat)
    (sim : List α → List α → α) (products_with_embeddings : List (ProductData α))
    (query_embedding : List α) (k : Nat) (exclude_ids : List String)
    (gender_filter : String) (article_type_filter : List String) :
    List (ProductItem α × α) :=
  let similarities := products_with_embeddings.filterMap (fun product =>
    if product.id ∈ exclude_ids then none
    else match product.embedding with
      | none => none
      | some e =>
          if e.isEmpty then none
          else
            let similarity := sim query_embedding e
            if gender_filter ≠ "" && product.gender ≠ gender_filter then none
            else if article_type_filter ≠ [] && product.articleType ∉ article_type_filter then none
            else some (product, similarity))
  let sorted := sortDesc (fun x => x.2) similarities
  let top_results := sorted.take k
  top_results.filterMap (fun x =>
    if gender_filter ≠ "" && x.1.gender ≠ gender_filter then none
    else if article_type_filter ≠ [] && x.1.articleType ∉ article_type_filter then none
    else some (create_product_item hashFn x.1 x.2, x.2))

/-- Source: `VectorSearchService._keyword_similarity_search` (Mode C). -/
def keyword_similarity_search (hashFn : String → Nat)
    (products_data : List (ProductData α)) (k : Nat) (exclude_ids : List String)
    (search_query : String) (gender_filter : String)
    (article_type_filter : List String) : List (ProductItem α × α) :=
  let available_products := products_data.filter (fun p => decide (p.id ∉ exclude_ids))
  if available_products.isEmpty then []
  else
    let selected_products :=
      if search_query ≠ "" then
        let search_terms := pySplit (pyToLower search_query)
        let scored_products := available_products.filterMap (fun product_data =>
          let score := calculate_text_similarity product_data search_terms
          if 0 < score then
            if gender_filter ≠ "" && product_data.gender ≠ gender_filter then none
            else if article_type_filter ≠ [] && product_data.articleType ∉ article_type_filter then none
            else some (product_data, score)
          else none)
        let sorted := sortDesc (fun x => x.2) scored_products
        sorted.take (min k sorted.length)
      else
        (available_products.take (min k available_products.length)).map
          (fun p => (p, (1 : α) / 2))
    selected_products.filterMap (fun x =>
      if gender_filter ≠ "" && x.1.gender ≠ gender_filter then none
      else if article_type_filter ≠ [] && x.1.articleType ∉ article_type_filter then none
      else some (create_product_item hashFn x.1 x.2, x.2))

/-- The candidate loop of `VectorSearchService._faiss_search` (Mode A):
iterate over the `(distance, index)` pairs returned by the FAISS index,
stop once `k` results are collected, skip excluded/filtered rows, and
convert L2 distance to a similarity score `1 / (1 + d)`. -/
def faiss_loop (hashFn : String → Nat) (metadata : List (ProductData α))
    (k : Nat) (exclude_ids : List String) (gender_filter : String)
    (article_type_filter : List String) :
    List (α × Nat) → List (ProductItem α × α) → List (ProductItem α × α)
  | [], results => results
  | (distance, idx) :: rest, results =>
      if k ≤ results.length then results
      else
        let product_data := metadata.getD idx default
        if product_data.id ∈ exclude_ids then
          faiss_loop hashFn metadata k exclude_ids gender_filter
            article_type_filter rest results
        else
          let similarity_score := 1 / (1 + distance)
          if gender_filter ≠ "" && product_data.gender ≠ gender_filter then
            faiss_loop hashFn metadata k exclude_ids gender_filter
              article_type_filter rest results
          else if article_type_filter ≠ [] && product_data.articleType ∉ article_type_filter then
            faiss_loop hashFn metadata k exclude_ids gender_filter
              article_type_filter rest results
          else
            faiss_loop hashFn metadata k exclude_ids gender_filter
              article_type_filter rest
              (results ++ [(create_product_item hashFn product_data similarity_score,
                similarity_score)])

/-- Source: `VectorSearchService._faiss_search` (Mode A).  `index_out`
is the `(distances, indices)` output of the external `self.index.search`
call, already zipped. -/
def faiss_search (hashFn : String → Nat) (metadata : List (ProductData α))
    (index_out : List (α × Nat)) (k : Nat) (exclude_ids : List String)
    (gender_filter : String) (article_type_filter : List String) :
    List (ProductItem α × α) :=
  faiss_loop hashFn metadata k exclude_ids gender_filter article_type_filter
    index_out []

/-- The per-call state of `VectorSearchService` that `similarity_search`
dispatches on.  `index_out?` is `some` exactly when `self.index` is
loaded, and then holds the external index's search output. -/
structure VectorServiceState (α : Type) where
  fallback_mode : Bool
  index_out? : Option (List (α × Nat))
  metadata : List (ProductData α)
  products_with_embeddings : List (ProductData α)
  products_data : List (ProductData α)

/-- Source: `VectorSearchService.similarity_search` — the three-tier
dispatch: Mode A (FAISS) if an index is loaded and not in fallback mode,
else Mode B (embedding similarity) if embedded products exist, else
Mode C (keyword matching) if raw products exist, else no results. -/
def similarity_search (hashFn : String → Nat) (sim : List α → List α → α)
    (st : VectorServiceState α) (query_embedding : List α) (k : Nat)
    (exclude_ids : List String) (search_query : String)
    (gender_filter : String) (article_type_filter : List String) :
    List (ProductItem α × α) :=
  match st.index_out? with
  | some index_out =>
      if st.fallback_mode then
        if !st.products_with_embeddings.isEmpty then
          embedding_similarity_search hashFn sim st.products_with_embeddings
            query_embedding k exclude_ids gender_filter article_type_filter
        else if !st.products_data.isEmpty then
          keyword_similarity_search hashFn st.products_data k exclude_ids
            search_query gender_filter article_type_filter
        else []
      else
        faiss_search hashFn st.metadata index_out k exclude_ids gender_filter
          article_type_filter
  | none =>
      if !st.products_with_embeddings.isEmpty then
        embedding_similarity_search hashFn sim st.products_with_embeddings
          query_embedding k exclude_ids gender_filter article_type_filter
      else if !st.products_data.isEmpty then
        keyword_similarity_search hashFn st.products_data k exclude_ids
          search_query gender_filter article_type_filter
      else []

/-- Source: `VectorSearchService.get_fresh_recommendations` — a
`similarity_search` with `k = count`, keeping only the items. -/
def vector_get_fresh_recommendations (hashFn : String → Nat)
    (sim : List α → List α → α) (st : VectorServiceState α)
    (query_embedding : List α) (exclude_ids : List String) (count : Nat)
    (search_query : String) (gender_filter : String)
    (article_type_filter : List String) : List (ProductItem α) :=
  (similarity_search hashFn sim st query_embedding count exclude_ids
    search_query gender_filter article_type_filter).map (fun r => r.1)

end Strategies

section Sessions

variable {α : Type} [LinearOrderedField α]

/-- The session dict cached by `RecommendationService` (the
`session_data` built in `get_recommendations`, lines 260–272), with the
user profile flattened to the two fields the core reads back
(`user_profile["gender"]`, `user_profile.get("preferred_article_types")`). -/
structure SessionData (α : Type) where
  user_profile_gender : String
  preferred_article_types : List String
  query_embedding : List α
  search_query : String
  exclude_ids : List String
  current_recommendations : List (ProductItem α)
  liked : List String
  disliked : List String
  saved : List String
  created_at : ℚ
  last_accessed : ℚ

/-- The mutable state of `RecommendationService`: the in-memory session
dict plus the sweep throttle timestamp.  Wall-clock time is idealised as
a rational number and passed explicitly to each operation. -/
structure RecServiceState (α : Type) where
  session_cache : List (String × SessionData α)
  last_cleanup : ℚ

/-- `self.session_ttl = 3600` (one hour, in seconds). -/
def session_ttl : ℚ := 3600

/-- `self.cleanup_interval = 300` (five minutes, in seconds). -/
def cleanup_interval : ℚ := 300

/-- Python-dict assignment `cache[sid] = d`: overwrite in place if the
key exists, else append. -/
def cacheInsert (cache : List (String × SessionData α)) (sid : String)
    (d : SessionData α) : List (String × SessionData α) :=
  if cache.any (fun e => e.1 = sid) then
    cache.map (fun e => if e.1 = sid then (sid, d) else e)
  else cache ++ [(sid, d)]

/-- Source: `RecommendationService._cleanup_expired_sessions`.  A no-op
unless `cleanup_interval` has elapsed since the last sweep; otherwise
removes every session with `current_time - created_at > session_ttl`
and records the sweep time. -/
def cleanup_expired_sessions (st : RecServiceState α) (current_time : ℚ) :
    RecServiceState α :=
  if current_time - st.last_cleanup < cleanup_interval then st
  else
    { session_cache := st.session_cache.filter
        (fun e => decide (current_time - e.2.created_at ≤ session_ttl))
      last_cleanup := current_time }

/-- Source: `RecommendationService._store_session_data`: sweep, stamp
`created_at`/`last_accessed` with the current time, store. -/
def store_session_data (st : RecServiceState α) (now : ℚ) (session_id : String)
    (data : SessionData α) : RecServiceState α :=
  let st1 := cleanup_expired_sessions st now
  let data1 := { data with created_at := now, last_accessed := now }
  { st1 with session_cache := cacheInsert st1.session_cache session_id data1 }

/-- Source: `RecommendationService._get_session_data`: sweep, then look
up; on a hit also refresh `last_accessed`. -/
def get_session_data (st : RecServiceState α) (now : ℚ) (session_id : String) :
    Option (SessionData α) × RecServiceState α :=
  let st1 := cleanup_expired_sessions st now
  match st1.session_cache.lookup session_id with
  | some d =>
      let d1 := { d with last_accessed := now }
      (some d1, { st1 with session_cache := cacheInsert st1.session_cache session_id d1 })
  | none => (none, st1)

/-- The session snapshot persisted by `get_recommendations` (step 8):
fresh interaction sets, the request's exclude list, and the cached query
state.  This is the only path that creates a session. -/
def create_session (st : RecServiceState α) (now : ℚ) (session_id : String)
    (query_embedding : List α) (search_query : String)
    (exclude_ids : List String) (gender : String)
    (article_types : List String) (recs : List (ProductItem α)) :
    RecServiceState α :=
  store_session_data st now session_id
    { user_profile_gender := gender
      preferred_article_types := article_types
      query_embedding := query_embedding
      search_query := search_query
      exclude_ids := exclude_ids
      current_recommendations := recs
      liked := []
      disliked := []
      saved := []
      created_at := 0
      last_accessed := 0 }

/-- Source: `RecommendationService.get_fresh_recommendations`.  Fails
with a "not found" error if the session is absent; otherwise unions the
cached exclude list with the new one (`list(set(a + b))` — modelled as
`dedup`, which has the same membership), searches, and stores the grown
exclude list back.  The returned state reflects the lazy sweep in both
the success and the error case. -/
def rec_get_fresh_recommendations (hashFn : String → Nat)
    (sim : List α → List α → α) (vst : VectorServiceState α)
    (st : RecServiceState α) (now : ℚ) (session_id : String)
    (exclude_ids : List String) (count : Nat) :
    Except String (List (ProductItem α)) × RecServiceState α :=
  match get_session_data st now session_id with
  | (none, st1) => (.error ("Session " ++ session_id ++ " not found"), st1)
  | (some session_data, st1) =>
      let all_exclude_ids := (session_data.exclude_ids ++ exclude_ids).dedup
      let fresh_items := vector_get_fresh_recommendations hashFn sim vst
        session_data.query_embedding all_exclude_ids count
        session_data.search_query session_data.user_profile_gender
        session_data.preferred_article_types
      let session_data1 := { session_data with exclude_ids := all_exclude_ids }
      (.ok fresh_items, store_session_data st1 now session_id session_data1)

/-- The interaction update of `process_feedback` (lines 359–376):
guarded list inserts and removals for like/dislike/save; a dislike also
appends the product to the session's exclude list. -/
def apply_interaction (sd : SessionData α) (product_id action : String) :
    SessionData α :=
  if action = "like" then
    { sd with
      liked := if product_id ∈ sd.liked then sd.liked else sd.liked ++ [product_id]
      disliked := if product_id ∈ sd.disliked then sd.disliked.erase product_id
        else sd.disliked }
  else if action = "dislike" then
    { sd with
      disliked := if product_id ∈ sd.disliked then sd.disliked
        else sd.disliked ++ [product_id]
      liked := if product_id ∈ sd.liked then sd.liked.erase product_id else sd.liked
      exclude_ids := if product_id ∈ sd.exclude_ids then sd.exclude_ids
        else sd.exclude_ids ++ [product_id] }
  else if action = "save" then
    { sd with
      saved := if product_id ∈ sd.saved then sd.saved else sd.saved ++ [product_id] }
  else sd

/-- The dict returned by `process_feedback`, with the optional
`fresh_recommendations` key. -/
structure FeedbackResponse (α : Type) where
  success : Bool
  message : String
  fresh_recommendations : Option (List (ProductItem α))

/-- Source: `RecommendationService.process_feedback`.  Updates the
interaction sets when the session exists (a missing session is silently
skipped), always reports success, and on a dislike additionally tries to
fetch one fresh recommendation, swallowing any "not found" error. -/
def process_feedback (hashFn : String → Nat) (sim : List α → List α → α)
    (vst : VectorServiceState α) (st : RecServiceState α) (now : ℚ)
    (session_id product_id action : String) :
    FeedbackResponse α × RecServiceState α :=
  let got := get_session_data st now session_id
  let st2 := match got.1 with
    | some session_data =>
        store_session_data got.2 now session_id
          (apply_interaction session_data product_id action)
    | none => got.2
  let response : FeedbackResponse α :=
    { success := true
      message := "Feedback " ++ action ++ " recorded"
      fresh_recommendations := none }
  if action = "dislike" then
    let fresh := rec_get_fresh_recommendations hashFn sim vst st2 now
      session_id [product_id] 1
    match fresh.1 with
    | .ok items => ({ response with fresh_recommendations := some items }, fresh.2)
    | .error _ => (response, fresh.2)
  else (response, st2)

end Sessions

section V2

variable {α : Type} [LinearOrderedField α]

/-- `app/models/responses.py` `CategoryResult` (wall-clock
`search_time_ms` omitted — real time is outside the model). -/
structure CategoryResult (α : Type) where
  items : List (ProductItem α)
  total_available : Nat
  requested_count : Nat
deriving DecidableEq

/-- `app/models/responses.py` `DebugInfo` (timing and search-mode
strings omitted). -/
structure DebugInfo where
  user_selections : List String
  categories_found : List String
  categories_missing : List String
  total_items : Nat
deriving DecidableEq

/-- `app/models/responses.py` `RecommendationResponseV2`; the
`categories` dict is an association list. -/
structure RecommendationResponseV2 (α : Type) where
  success : Bool
  error? : Option String
  categories : List (String × CategoryResult α)
  session_id : String
  debug_info : DebugInfo

/-- Python-dict assignment `result.categories[category] = ...`. -/
def dictInsert {β : Type} (cache : List (String × β)) (k : String) (v : β) :
    List (String × β) :=
  if cache.any (fun e => e.1 = k) then
    cache.map (fun e => if e.1 = k then (k, v) else e)
  else cache ++ [(k, v)]

/-- `request.items_per_category or 20` (Python truthiness: `None`/`0`
fall back to 20); `items_per_category` is modelled as a `Nat` with `0`
for the falsy values. -/
def v2_count (items_per_category : Nat) : Nat :=
  if items_per_category = 0 then 20 else items_per_category

/-- The per-category body of `get_recommendations_v2` (lines 479–558).
The similarity-search call (which may raise) is abstracted as
`searchOutcome`, and the LLM re-ranking call as `enhanceOutcome`; an
`Except.error` models a raised exception.  A failed search yields an
empty `CategoryResult` and a `categories_missing` entry; a failed
enhancement falls back to the raw search results. -/
def v2_category_step (items_per_category : Nat)
    (searchOutcome : String → Except String (List (ProductItem α)))
    (enhanceOutcome : String → List (ProductItem α) → Except String (List (ProductItem α)))
    (result : RecommendationResponseV2 α) (category : String) :
    RecommendationResponseV2 α :=
  match searchOutcome category with
  | .error _ =>
      { result with
        categories := dictInsert result.categories category
          { items := [], total_available := 0
            requested_count := v2_count items_per_category }
        debug_info := { result.debug_info with
          categories_missing := result.debug_info.categories_missing ++ [category] } }
  | .ok category_items =>
      let final_items :=
        if category_items.isEmpty then []
        else match enhanceOutcome category category_items with
          | .ok enhanced => enhanced.take (v2_count items_per_category * 2)
          | .error _ => category_items.take (v2_count items_per_category * 2)
      let result1 := { result with
        categories := dictInsert result.categories category
          { items := final_items, total_available := final_items.length
            requested_count := v2_count items_per_category } }
      if final_items.isEmpty then
        { result1 with debug_info := { result1.debug_info with
            categories_missing := result1.debug_info.categories_missing ++ [category] } }
      else
        { result1 with debug_info := { result1.debug_info with
            categories_found := result1.debug_info.categories_found ++ [category] } }

/-- The `CategoryResult` that `get_recommendations_v2` ends up storing
for a given category (error, empty and enhanced cases). -/
def v2_entry (items_per_category : Nat)
    (searchOutcome : String → Except String (List (ProductItem α)))
    (enhanceOutcome : String → List (ProductItem α) → Except String (List (ProductItem α)))
    (category : String) : CategoryResult α :=
  match searchOutcome category with
  | .error _ =>
      { items := [], total_available := 0
        requested_count := v2_count items_per_category }
  | .ok category_items =>
      let final_items :=
        if category_items.isEmpty then []
        else match enhanceOutcome category category_items with
          | .ok enhanced => enhanced.take (v2_count items_per_category * 2)
          | .error _ => category_items.take (v2_count items_per_category * 2)
      { items := final_items, total_available := final_items.length
        requested_count := v2_count items_per_category }

/-- Source: `RecommendationService.get_recommendations_v2`.  An empty
category list raises `ValueError` which the outer handler turns into a
failure response; otherwise every requested category is processed
independently and the totals are summed at the end. -/
def get_recommendations_v2 (user_categories : List String)
    (items_per_category : Nat) (session_id : String)
    (searchOutcome : String → Except String (List (ProductItem α)))
    (enhanceOutcome : String → List (ProductItem α) → Except String (List (ProductItem α))) :
    RecommendationResponseV2 α :=
  if user_categories.isEmpty then
    { success := false,
      error? := some "No article types specified",
      categories := [],
      session_id := session_id,
      debug_info := { user_selections := user_categories,
                      categories_found := [],
                      categories_missing := user_categories,
                      total_items := 0 } }
  else
    let init : RecommendationResponseV2 α :=
      { success := true, error? := none, categories := [],
        session_id := session_id,
        debug_info := { user_selections := user_categories,
                        categories_found := [], categories_missing := [],
                        total_items := 0 } }
    let result := user_categories.foldl
      (v2_category_step items_per_category searchOutcome enhanceOutcome) init
    { result with debug_info := { result.debug_info with
        total_items := (result.categories.map (fun e => e.2.items.length)).sum } }

end V2

section Cosine

/-- Source: `VectorSearchService.cosine_similarity` (identical to
`LightweightSimilarityService.cosine_similarity`): dot product over the
product of magnitudes, `0` on length mismatch or when either magnitude
is zero.  Floats are idealised as real numbers. -/
noncomputable def cosine_similarity (vec1 vec2 : List ℝ) : ℝ :=
  if vec1.length ≠ vec2.length then 0
  else
    let dot_product := ((vec1.zip vec2).map (fun p => p.1 * p.2)).sum
    let magnitude1 := Real.sqrt ((vec1.map (fun a => a * a)).sum)
    let magnitude2 := Real.sqrt ((vec2.map (fun b => b * b)).sum)
    if magnitude1 = 0 ∨ magnitude2 = 0 then 0
    else dot_product / (magnitude1 * magnitude2)

end Cosine

section EligibilityPredicates

variable {α : Type} [LinearOrderedField α]

/-- Truthiness of `product['embedding']`: key present and list nonempty. -/
def hasEmbedding (p : ProductData α) : Bool :=
  match p.embedding with
  | some e => !e.isEmpty
  | none => false

/-- The embedding list a Mode B candidate is scored with. -/
def embOf (p : ProductData α) : List α := p.embedding.getD []

/-- A record survives the Mode B candidate loop iff it is not excluded,
carries a (truthy) embedding, and passes the gender and article-type
filters. -/
def embKeep (exclude_ids : List String) (gender_filter : String)
    (article_type_filter : List String) (p : ProductData α) : Bool :=
  decide (p.id ∉ exclude_ids) && hasEmbedding p && genderPass gender_filter p
    && articlePass article_type_filter p

/-- Eligibility by the three shared filters (exclude, gender,
article type) alone. -/
def eligibleKeep (exclude_ids : List String) (gender_filter : String)
    (article_type_filter : List String) (p : ProductData α) : Bool :=
  decide (p.id ∉ exclude_ids) && genderPass gender_filter p
    && articlePass article_type_filter p

/-- A record survives the Mode C scoring loop iff its text score is
positive and it passes the gender and article-type filters. -/
def kwKeep (search_terms : List String) (gender_filter : String)
    (article_type_filter : List String) (p : ProductData α) : Bool :=
  decide (0 < calculate_text_similarity p search_terms)
    && genderPass gender_filter p && articlePass article_type_filter p

/-- The redundant second filter pass applied while building the final
`ProductItem` list (both Mode B and Mode C repeat the gender and
article-type tests there). -/
def itemPass (gender_filter : String) (article_type_filter : List String)
    (x : ProductData α × α) : Bool :=
  genderPass gender_filter x.1 && articlePass article_type_filter x.1

/-- The conversion from a scored record to the returned
`(ProductItem, score)` pair. -/
def toItem (hashFn : String → Nat) (x : ProductData α × α) :
    ProductItem α × α :=
  (create_product_item hashFn x.1 x.2, x.2)

/-- The shared result-shaping of Mode B and Mode C (query branch):
stable-sort the scored candidates, truncate to `k`, re-apply the
gender/article filters, convert to `ProductItem` pairs. -/
def shapeResult (hashFn : String → Nat) (gender_filter : String)
    (article_type_filter : List String) (k : Nat)
    (cand : List (ProductData α × α)) : List (ProductItem α × α) :=
  (((sortDesc (fun x => x.2) cand).take k).filter
    (itemPass gender_filter article_type_filter)).map (toItem hashFn)

end EligibilityPredicates

section SampleData

/-- A trivial stand-in for Python's builtin `hash`, used to instantiate
theorems at concrete inputs. -/
def hash0 : String → Nat := fun _ => 0

/-- A trivial similarity function, used to instantiate theorems at
concrete inputs. -/
def sim0 : List ℚ → List ℚ → ℚ := fun _ _ => 0

/-- A concrete men's catalog row used in concrete instantiations. -/
def sampleMen : ProductData ℚ :=
  { id := "1", productDisplayName := "Blue Shirt", masterCategory := "Apparel"
    subCategory := "Topwear", articleType := "Shirts", baseColour := "Blue"
    gender := "Men", season := "Summer", usage := "Casual"
    embedding := some [1] }

/-- A concrete unisex catalog row used in concrete instantiations. -/
def sampleUnisex : ProductData ℚ :=
  { id := "2", productDisplayName := "Grey Scarf", masterCategory := "Accessories"
    subCategory := "Scarves", articleType := "Scarves", baseColour := "Grey"
    gender := "Unisex", season := "Winter", usage := "Casual"
    embedding := some [1] }

/-- A second concrete men's row used in concrete instantiations. -/
def sampleMen2 : ProductData ℚ :=
  { id := "3", productDisplayName := "Red Jeans", masterCategory := "Apparel"
    subCategory := "Bottomwear", articleType := "Jeans", baseColour := "Red"
    gender := "Men", season := "Fall", usage := "Casual"
    embedding := some [1] }

/-- A concrete vector-service state (Mode B) used in concrete
instantiations. -/
def vst0 : VectorServiceState ℚ :=
  { fallback_mode := true, index_out? := none, metadata := []
    products_with_embeddings := [sampleMen, sampleUnisex, sampleMen2]
    products_data := [] }

/-- A concrete empty recommendation-service state used in concrete
instantiations. -/
def recState0 : RecServiceState ℚ :=
  { session_cache := [], last_cleanup := 0 }

/-- A concrete session used in concrete instantiations. -/
def sampleSession : SessionData ℚ :=
  { user_profile_gender := "Men", preferred_article_types := []
    query_embedding := [1], search_query := "", exclude_ids := ["9"]
    current_recommendations := [], liked := [], disliked := ["9"], saved := []
    created_at := 0, last_accessed := 0 }

end SampleData

section InvariantDefs

variable {α : Type} [LinearOrderedField α]

/-- The spec's session invariant: in every stored session, every
disliked product id is also in the session's exclude list
(`excludeIds ⊇ interactions.disliked`). -/
def SessionInvariant (st : RecServiceState α) : Prop :=
  ∀ e ∈ st.session_cache, ∀ x ∈ e.2.disliked, x ∈ e.2.exclude_ids

end InvariantDefs

/-! ### Helper lemmas: the stable descending sort -/

section StableSortLemmas

variable {α : Type} [LinearOrder α] {β : Type}

theorem insertDesc_perm (f : β → α) (x : β) (l : List β) :
    List.Perm (insertDesc f x l) (x :: l) := by
  induction l with
  | nil => simp [insertDesc]
  | cons y ys ih =>
      by_cases h : f y ≤ f x
      · simp [insertDesc, h]
      · simp only [insertDesc, h, if_false]
        exact (ih.cons y).trans (List.Perm.swap x y ys)

theorem sortDesc_perm (f : β → α) (l : List β) :
    List.Perm (sortDesc f l) l := by
  induction l with
  | nil => simp [sortDesc]
  | cons x xs ih => exact (insertDesc_perm f x (sortDesc f xs)).trans (ih.cons x)

theorem insertDesc_sorted (f : β → α) (x : β) (l : List β)
    (h : l.Pairwise (fun a b => f b ≤ f a)) :
    (insertDesc f x l).Pairwise (fun a b => f b ≤ f a) := by
  induction l with
  | nil => simp [insertDesc]
  | cons y ys ih =>
      rcases List.pairwise_cons.mp h with ⟨hy, hys⟩
      by_cases hc : f y ≤ f x
      · simp only [insertDesc, hc, if_true]
        refine List.pairwise_cons.mpr ⟨?_, h⟩
        intro b hb
        rcases List.mem_cons.mp hb with rfl | hb
        · exact hc
        · exact le_trans (hy b hb) hc
      · simp only [insertDesc, hc, if_false]
        refine List.pairwise_cons.mpr ⟨?_, ih hys⟩
        intro b hb
        have hb' := (insertDesc_perm f x ys).mem_iff.mp hb
        rcases List.mem_cons.mp hb' with rfl | hb'
        · exact le_of_not_le hc
        · exact hy b hb'

theorem sortDesc_sorted (f : β → α) (l : List β) :
    (sortDesc f l).Pairwise (fun a b => f b ≤ f a) := by
  induction l with
  | nil => simp [sortDesc]
  | cons x xs ih => exact insertDesc_sorted f x _ ih

theorem insertDesc_filter_key (f : β → α) (x : β) (l : List β) (s : α) :
    (insertDesc f x l).filter (fun y => f y = s)
      = (x :: l).filter (fun y => f y = s) := by
  induction l with
  | nil => simp [insertDesc]
  | cons y ys ih =>
      by_cases hc : f y ≤ f x
      · simp [insertDesc, hc]
      · have hyx : f x < f y := lt_of_not_le hc
        simp only [insertDesc, hc, if_false]
        by_cases hx : f x = s
        · have hy : ¬ (f y = s) := by
            intro h
            rw [hx] at hyx
            rw [h] at hyx
            exact lt_irrefl _ hyx
          simp [List.filter_cons, hx, hy, ih]
        · by_cases hy : f y = s
          · simp [List.filter_cons, hy, hx, ih]
          · simp [List.filter_cons, hy, hx, ih]

/-- Stability of the sort: the elements carrying any fixed key `s`
appear in the sorted output in exactly their original order. -/
theorem sortDesc_filter_key (f : β → α) (l : List β) (s : α) :
    (sortDesc f l).filter (fun y => f y = s) = l.filter (fun y => f y = s) := by
  induction l with
  | nil => simp [sortDesc]
  | cons x xs ih =>
      rw [sortDesc, insertDesc_filter_key, List.filter_cons, List.filter_cons, ih]


end StableSortLemmas

/-! ### Helper lemmas: lists -/

section ListLemmas

variable {γ δ : Type}

theorem take_min_self (l : List γ) (n : Nat) :
    l.take (min n l.length) = l.take n := by
  rcases le_total n l.length with h | h
  · rw [min_eq_left h]
  · rw [min_eq_right h, List.take_length, List.take_of_length_le h]

theorem filterMap_guard (p : γ → Bool) (g : γ → δ) (l : List γ) :
    l.filterMap (fun x => if p x then some (g x) else none)
      = (l.filter p).map g := by
  induction l with
  | nil => rfl
  | cons x xs ih =>
      by_cases h : p x
      · simp [List.filterMap_cons, List.filter_cons, h, ih]
      · simp [List.filterMap_cons, List.filter_cons, h, ih]

theorem pairwise_of_forall {R : γ → γ → Prop} (h : ∀ a b, R a b)
    (l : List γ) : l.Pairwise R := by
  induction l with
  | nil => exact List.Pairwise.nil
  | cons x xs ih => exact List.Pairwise.cons (fun b _ => h x b) ih

theorem lookup_mem {β : Type} (l : List (String × β)) (k : String) (v : β)
    (h : l.lookup k = some v) : (k, v) ∈ l := by
  induction l with
  | nil => simp [List.lookup] at h
  | cons e es ih =>
      obtain ⟨ek, ev⟩ := e
      by_cases hk : k = ek
      · subst hk
        simp [List.lookup] at h
        rw [← h]
        exact List.mem_cons_self _ _
      · have hb : (k == ek) = false := beq_eq_false_iff_ne.mpr hk
        simp [List.lookup, hb] at h
        exact List.mem_cons_of_mem _ (ih h)

end ListLemmas

/-! ### Helper lemmas: normal forms of the Mode B / Mode C searches -/

section NormalForms

variable {α : Type} [LinearOrderedField α]

theorem final_pass_eq (hashFn : String → Nat) (gf : String) (af : List String)
    (l : List (ProductData α × α)) :
    l.filterMap (fun x =>
      if gf ≠ "" && x.1.gender ≠ gf then none
      else if af ≠ [] && x.1.articleType ∉ af then none
      else some (create_product_item hashFn x.1 x.2, x.2))
      = (l.filter (itemPass gf af)).map (toItem hashFn) := by
  have hfun : (fun x : ProductData α × α =>
      if gf ≠ "" && x.1.gender ≠ gf then none
      else if af ≠ [] && x.1.articleType ∉ af then none
      else some (create_product_item hashFn x.1 x.2, x.2))
      = (fun x => if itemPass gf af x then some (toItem hashFn x) else none) := by
    funext x
    cases h1 : (decide (gf ≠ "") && decide (x.1.gender ≠ gf)) with
    | true =>
        have hip : itemPass gf af x = false := by
          unfold itemPass genderPass
          rw [h1]
          rfl
        rw [hip]
        rfl
    | false =>
        cases h2 : (decide (af ≠ []) && decide (x.1.articleType ∉ af)) with
        | true =>
            have hip : itemPass gf af x = false := by
              unfold itemPass genderPass articlePass
              rw [h1, h2]
              rfl
            rw [hip]
            rfl
        | false =>
            have hip : itemPass gf af x = true := by
              unfold itemPass genderPass articlePass
              rw [h1, h2]
              rfl
            rw [hip]
            rfl
  rw [hfun, filterMap_guard]

theorem emb_candidates_eq (sim : List α → List α → α) (q : List α)
    (excl : List String) (gf : String) (af : List String)
    (products : List (ProductData α)) :
    products.filterMap (fun product =>
      if product.id ∈ excl then none
      else match product.embedding with
        | none => none
        | some e =>
            if e.isEmpty then none
            else
              let similarity := sim q e
              if gf ≠ "" && product.gender ≠ gf then none
              else if af ≠ [] && product.articleType ∉ af then none
              else some (product, similarity))
      = (products.filter (embKeep excl gf af)).map
          (fun p => (p, sim q (embOf p))) := by
  have hfun : (fun product : ProductData α =>
      if product.id ∈ excl then none
      else match product.embedding with
        | none => none
        | some e =>
            if e.isEmpty then none
            else
              let similarity := sim q e
              if gf ≠ "" && product.gender ≠ gf then none
              else if af ≠ [] && product.articleType ∉ af then none
              else some (product, similarity))
      = (fun p => if embKeep excl gf af p
          then some ((p, sim q (embOf p)) : ProductData α × α) else none) := by
    funext p
    by_cases hex : p.id ∈ excl
    · have hdf : decide (p.id ∉ excl) = false :=
        decide_eq_false (not_not_intro hex)
      have hk : embKeep excl gf af p = false := by
        unfold embKeep
        rw [hdf, Bool.false_and, Bool.false_and, Bool.false_and]
      rw [if_pos hex, hk]
      rfl
    · have hd : decide (p.id ∉ excl) = true := decide_eq_true hex
      rw [if_neg hex]
      cases hemb : p.embedding with
      | none =>
          have hhe : hasEmbedding p = false := by
            unfold hasEmbedding
            rw [hemb]
          have hk : embKeep excl gf af p = false := by
            unfold embKeep
            rw [hhe, Bool.and_false, Bool.false_and, Bool.false_and]
          dsimp only
          rw [hk]
          rfl
      | some e =>
          dsimp only
          by_cases he : e.isEmpty
          · have hhe : hasEmbedding p = false := by
              unfold hasEmbedding
              rw [hemb]
              dsimp only
              rw [he]
              rfl
            have hk : embKeep excl gf af p = false := by
              unfold embKeep
              rw [hhe, Bool.and_false, Bool.false_and, Bool.false_and]
            rw [hk, he]
            rfl
          · have he' : e.isEmpty = false := by simpa using he
            have hhe : hasEmbedding p = true := by
              unfold hasEmbedding
              rw [hemb]
              dsimp only
              rw [he']
              rfl
            have hem : embOf p = e := by
              unfold embOf
              rw [hemb]
              rfl
            rw [he']
            cases h1 : (decide (gf ≠ "") && decide (p.gender ≠ gf)) with
            | true =>
                have hgp : genderPass gf p = false := by
                  unfold genderPass
                  rw [h1]
                  rfl
                have hk : embKeep excl gf af p = false := by
                  unfold embKeep
                  rw [hgp, Bool.and_false, Bool.false_and]
                rw [hk]
                rfl
            | false =>
                have hgp : genderPass gf p = true := by
                  unfold genderPass
                  rw [h1]
                  rfl
                cases h2 : (decide (af ≠ []) && decide (p.articleType ∉ af)) with
                | true =>
                    have hap : articlePass af p = false := by
                      unfold articlePass
                      rw [h2]
                      rfl
                    have hk : embKeep excl gf af p = false := by
                      unfold embKeep
                      rw [hap, Bool.and_false]
                    rw [hk]
                    rfl
                | false =>
                    have hap : articlePass af p = true := by
                      unfold articlePass
                      rw [h2]
                      rfl
                    have hk : embKeep excl gf af p = true := by
                      unfold embKeep
                      rw [hd, hhe, hgp, hap]
                      rfl
                    rw [hk, hem]
                    rfl
  rw [hfun, filterMap_guard]

theorem embedding_search_eq (hashFn : String → Nat)
    (sim : List α → List α → α) (products : List (ProductData α))
    (q : List α) (k : Nat) (excl : List String) (gf : String)
    (af : List String) :
    embedding_similarity_search hashFn sim products q k excl gf af
      = shapeResult hashFn gf af k
          ((products.filter (embKeep excl gf af)).map
            (fun p => (p, sim q (embOf p)))) := by
  simp only [embedding_similarity_search, shapeResult]
  rw [emb_candidates_eq, final_pass_eq]

theorem kw_scored_eq (terms : List String) (gf : String) (af : List String)
    (available : List (ProductData α)) :
    available.filterMap (fun product_data =>
      let score := calculate_text_similarity product_data terms
      if 0 < score then
        if gf ≠ "" && product_data.gender ≠ gf then none
        else if af ≠ [] && product_data.articleType ∉ af then none
        else some (product_data, score)
      else none)
      = (available.filter (kwKeep terms gf af)).map
          (fun p => (p, calculate_text_similarity p terms)) := by
  have hfun : (fun product_data : ProductData α =>
      let score := calculate_text_similarity product_data terms
      if 0 < score then
        if gf ≠ "" && product_data.gender ≠ gf then none
        else if af ≠ [] && product_data.articleType ∉ af then none
        else some (product_data, score)
      else none)
      = (fun p => if kwKeep terms gf af p
          then some ((p, calculate_text_similarity p terms) : ProductData α × α)
          else none) := by
    funext p
    dsimp only
    by_cases hpos : (0 : α) < calculate_text_similarity p terms
    · have hd0 : decide ((0 : α) < calculate_text_similarity p terms) = true :=
        decide_eq_true hpos
      rw [if_pos hpos]
      cases h1 : (decide (gf ≠ "") && decide (p.gender ≠ gf)) with
      | true =>
          have hgp : genderPass gf p = false := by
            unfold genderPass
            rw [h1]
            rfl
          have hk : kwKeep terms gf af p = false := by
            unfold kwKeep
            rw [hgp, Bool.and_false, Bool.false_and]
          rw [hk]
          rfl
      | false =>
          have hgp : genderPass gf p = true := by
            unfold genderPass
            rw [h1]
            rfl
          cases h2 : (decide (af ≠ []) && decide (p.articleType ∉ af)) with
          | true =>
              have hap : articlePass af p = false := by
                unfold articlePass
                rw [h2]
                rfl
              have hk : kwKeep terms gf af p = false := by
                unfold kwKeep
                rw [hap, Bool.and_false]
              rw [hk]
              rfl
          | false =>
              have hap : articlePass af p = true := by
                unfold articlePass
                rw [h2]
                rfl
              have hk : kwKeep terms gf af p = true := by
                unfold kwKeep
                rw [hd0, hgp, hap]
                rfl
              rw [hk]
              rfl
    · have hd0 : decide ((0 : α) < calculate_text_similarity p terms) = false :=
        decide_eq_false hpos
      have hk : kwKeep terms gf af p = false := by
        unfold kwKeep
        rw [hd0, Bool.false_and, Bool.false_and]
      rw [if_neg hpos, hk]
      rfl
  rw [hfun, filterMap_guard]

theorem keyword_search_eq_query (hashFn : String → Nat)
    (products : List (ProductData α)) (k : Nat) (excl : List String)
    (q : String) (gf : String) (af : List String) (hq : q ≠ "") :
    keyword_similarity_search hashFn products k excl q gf af
      = shapeResult hashFn gf af k
          (((products.filter (fun p => decide (p.id ∉ excl))).filter
            (kwKeep (pySplit (pyToLower q)) gf af)).map
            (fun p => (p, calculate_text_similarity p (pySplit (pyToLower q))))) := by
  simp only [keyword_similarity_search, shapeResult]
  by_cases hav : (products.filter (fun p => decide (p.id ∉ excl))).isEmpty
  · have hav' : products.filter (fun p => decide (p.id ∉ excl)) = [] :=
      List.isEmpty_iff.mp hav
    rw [hav']
    simp [sortDesc]
  · rw [if_neg (by simpa using hav), if_pos hq, kw_scored_eq, take_min_self,
      final_pass_eq]

theorem keyword_search_eq_noquery (hashFn : String → Nat)
    (products : List (ProductData α)) (k : Nat) (excl : List String)
    (gf : String) (af : List String) :
    keyword_similarity_search hashFn products k excl "" gf af
      = ((((products.filter (fun p => decide (p.id ∉ excl))).take k).map
          (fun p => (p, (1 : α) / 2))).filter (itemPass gf af)).map
          (toItem hashFn) := by
  simp only [keyword_similarity_search]
  by_cases hav : (products.filter (fun p => decide (p.id ∉ excl))).isEmpty
  · have hav' : products.filter (fun p => decide (p.id ∉ excl)) = [] :=
      List.isEmpty_iff.mp hav
    rw [hav']
    simp
  · rw [if_neg (by simpa using hav), if_neg (by simp), take_min_self,
      final_pass_eq]

end NormalForms

/-! ### Helper lemmas: properties of the shared result shape -/

section ShapeLemmas

variable {α : Type} [LinearOrderedField α]

theorem shapeResult_pairwise (hashFn : String → Nat) (gf : String)
    (af : List String) (k : Nat) (cand : List (ProductData α × α)) :
    (shapeResult hashFn gf af k cand).Pairwise (fun a b => b.2 ≤ a.2) := by
  unfold shapeResult
  rw [List.pairwise_map]
  exact List.Pairwise.sublist
    ((List.filter_sublist _).trans (List.take_sublist _ _))
    (sortDesc_sorted _ _)

theorem shapeResult_length (hashFn : String → Nat) (gf : String)
    (af : List String) (k : Nat) (cand : List (ProductData α × α)) :
    (shapeResult hashFn gf af k cand).length ≤ k := by
  unfold shapeResult
  rw [List.length_map]
  refine le_trans (List.length_filter_le _ _) ?_
  rw [List.length_take]
  exact min_le_left _ _

theorem shapeResult_mem (hashFn : String → Nat) (gf : String)
    (af : List String) (k : Nat) (cand : List (ProductData α × α))
    (r : ProductItem α × α) (h : r ∈ shapeResult hashFn gf af k cand) :
    ∃ x ∈ cand, itemPass gf af x = true ∧ r = toItem hashFn x := by
  unfold shapeResult at h
  rcases List.mem_map.mp h with ⟨x, hx, rfl⟩
  rcases List.mem_filter.mp hx with ⟨hx1, hx2⟩
  have hx3 : x ∈ sortDesc (fun y => y.2) cand := List.take_subset _ _ hx1
  exact ⟨x, (sortDesc_perm _ _).mem_iff.mp hx3, hx2, rfl⟩

theorem shapeResult_tie (hashFn : String → Nat) (gf : String)
    (af : List String) (k : Nat) (cand : List (ProductData α × α)) (s : α) :
    List.Sublist
      (((shapeResult hashFn gf af k cand).filter
        (fun r => r.2 = s)).map (fun r => r.1.id))
      (cand.map (fun x => x.1.id)) := by
  unfold shapeResult
  rw [List.filter_map, List.map_map]
  have key : List.Sublist
      ((((sortDesc (fun y => y.2) cand).take k).filter (itemPass gf af)).filter
        ((fun r : ProductItem α × α => decide (r.2 = s)) ∘ toItem hashFn))
      (cand.filter (fun y => y.2 = s)) := by
    have t1 : List.Sublist
        ((((sortDesc (fun y => y.2) cand).take k).filter (itemPass gf af)).filter
          ((fun r : ProductItem α × α => decide (r.2 = s)) ∘ toItem hashFn))
        ((sortDesc (fun y => y.2) cand).filter
          ((fun r : ProductItem α × α => decide (r.2 = s)) ∘ toItem hashFn)) :=
      List.Sublist.filter _
        ((List.filter_sublist _).trans (List.take_sublist _ _))
    have t2 : (sortDesc (fun y => y.2) cand).filter
        ((fun r : ProductItem α × α => decide (r.2 = s)) ∘ toItem hashFn)
        = cand.filter (fun y => y.2 = s) := by
      have := sortDesc_filter_key (fun y : ProductData α × α => y.2) cand s
      exact this
    rw [t2] at t1
    exact t1
  have final := List.Sublist.map (fun x : ProductData α × α => x.1.id)
    (key.trans (List.filter_sublist _))
  exact final

theorem shapeResult_perm (hashFn : String → Nat) (gf : String)
    (af : List String) (k : Nat) (cand : List (ProductData α × α))
    (hpass : ∀ x ∈ cand, itemPass gf af x = true) (hlen : cand.length ≤ k) :
    List.Perm ((shapeResult hashFn gf af k cand).map (fun r => r.1.id))
      (cand.map (fun x => x.1.id)) := by
  unfold shapeResult
  have hlen2 : (sortDesc (fun y => y.2) cand).length = cand.length :=
    (sortDesc_perm _ _).length_eq
  rw [List.take_of_length_le (by rw [hlen2]; exact hlen)]
  have hfil : (sortDesc (fun y => y.2) cand).filter (itemPass gf af)
      = sortDesc (fun y => y.2) cand :=
    List.filter_eq_self.mpr
      (fun x hx => hpass x ((sortDesc_perm _ _).mem_iff.mp hx))
  rw [hfil, List.map_map]
  exact (sortDesc_perm _ _).map _

end ShapeLemmas

/-! ### Helper lemmas: the Mode A candidate loop -/

section FaissLemmas

variable {α : Type} [LinearOrderedField α]

theorem faiss_loop_mem (hashFn : String → Nat)
    (metadata : List (ProductData α)) (k : Nat) (excl : List String)
    (gf : String) (af : List String) :
    ∀ (l : List (α × Nat)) (acc : List (ProductItem α × α))
      (r : ProductItem α × α),
      r ∈ faiss_loop hashFn metadata k excl gf af l acc →
      r ∈ acc ∨ ∃ d idx, (d, idx) ∈ l ∧
        (metadata.getD idx default).id ∉ excl ∧
        genderPass gf (metadata.getD idx default) = true ∧
        articlePass af (metadata.getD idx default) = true ∧
        r = (create_product_item hashFn (metadata.getD idx default)
          (1 / (1 + d)), 1 / (1 + d)) := by
  intro l
  induction l with
  | nil =>
      intro acc r h
      rw [faiss_loop] at h
      exact Or.inl h
  | cons hd rest ih =>
      intro acc r h
      obtain ⟨d, idx⟩ := hd
      rw [faiss_loop] at h
      by_cases hbreak : k ≤ acc.length
      · rw [if_pos hbreak] at h
        exact Or.inl h
      · rw [if_neg hbreak] at h
        by_cases hex : (metadata.getD idx default).id ∈ excl
        · rw [if_pos hex] at h
          rcases ih acc r h with h' | ⟨d', idx', hmem, h2, h3, h4, h5⟩
          · exact Or.inl h'
          · exact Or.inr ⟨d', idx', List.mem_cons_of_mem _ hmem, h2, h3, h4, h5⟩
        · rw [if_neg hex] at h
          cases h1 : (decide (gf ≠ "")
              && decide ((metadata.getD idx default).gender ≠ gf)) with
          | true =>
              rw [h1] at h
              rw [if_pos rfl] at h
              rcases ih acc r h with h' | ⟨d', idx', hmem, h2, h3, h4, h5⟩
              · exact Or.inl h'
              · exact Or.inr ⟨d', idx', List.mem_cons_of_mem _ hmem, h2, h3, h4, h5⟩
          | false =>
              rw [h1] at h
              rw [if_neg (by simp)] at h
              cases h2 : (decide (af ≠ [])
                  && decide ((metadata.getD idx default).articleType ∉ af)) with
              | true =>
                  rw [h2] at h
                  rw [if_pos rfl] at h
                  rcases ih acc r h with h' | ⟨d', idx', hmem, h3, h4, h5, h6⟩
                  · exact Or.inl h'
                  · exact Or.inr ⟨d', idx', List.mem_cons_of_mem _ hmem,
                      h3, h4, h5, h6⟩
              | false =>
                  rw [h2] at h
                  rw [if_neg (by simp)] at h
                  rcases ih _ r h with h' | ⟨d', idx', hmem, h3, h4, h5, h6⟩
                  · rcases List.mem_append.mp h' with h'' | h''
                    · exact Or.inl h''
                    · rcases List.mem_singleton.mp h'' with rfl
                      refine Or.inr ⟨d, idx, List.mem_cons_self _ _, hex, ?_, ?_, rfl⟩
                      · unfold genderPass
                        rw [h1]
                        rfl
                      · unfold articlePass
                        rw [h2]
                        rfl
                  · exact Or.inr ⟨d', idx', List.mem_cons_of_mem _ hmem,
                      h3, h4, h5, h6⟩

theorem faiss_loop_length (hashFn : String → Nat)
    (metadata : List (ProductData α)) (k : Nat) (excl : List String)
    (gf : String) (af : List String) :
    ∀ (l : List (α × Nat)) (acc : List (ProductItem α × α)),
      acc.length ≤ k →
      (faiss_loop hashFn metadata k excl gf af l acc).length ≤ k := by
  intro l
  induction l with
  | nil =>
      intro acc hacc
      rw [faiss_loop]
      exact hacc
  | cons hd rest ih =>
      intro acc hacc
      obtain ⟨d, idx⟩ := hd
      rw [faiss_loop]
      by_cases hbreak : k ≤ acc.length
      · rw [if_pos hbreak]
        exact hacc
      · rw [if_neg hbreak]
        have hlt : acc.length < k := lt_of_not_le hbreak
        by_cases hex : (metadata.getD idx default).id ∈ excl
        · rw [if_pos hex]
          exact ih acc hacc
        · rw [if_neg hex]
          cases h1 : (decide (gf ≠ "")
              && decide ((metadata.getD idx default).gender ≠ gf)) with
          | true =>
              rw [if_pos rfl]
              exact ih acc hacc
          | false =>
              rw [if_neg (by simp)]
              cases h2 : (decide (af ≠ [])
                  && decide ((metadata.getD idx default).articleType ∉ af)) with
              | true =>
                  rw [if_pos rfl]
                  exact ih acc hacc
              | false =>
                  rw [if_neg (by simp)]
                  refine ih _ ?_
                  rw [List.length_append, List.length_singleton]
                  exact Nat.succ_le_of_lt hlt

theorem faiss_loop_sorted (hashFn : String → Nat)
    (metadata : List (ProductData α)) (k : Nat) (excl : List String)
    (gf : String) (af : List String) :
    ∀ (l : List (α × Nat)) (acc : List (ProductItem α × α)),
      l.Pairwise (fun p q => p.1 ≤ q.1) →
      (∀ p ∈ l, 0 ≤ p.1) →
      acc.Pairwise (fun a b => b.2 ≤ a.2) →
      (∀ r ∈ acc, ∀ p ∈ l, 1 / (1 + p.1) ≤ r.2) →
      (faiss_loop hashFn metadata k excl gf af l acc).Pairwise
        (fun a b => b.2 ≤ a.2) := by
  intro l
  induction l with
  | nil =>
      intro acc _ _ hacc _
      rw [faiss_loop]
      exact hacc
  | cons hd rest ih =>
      intro acc hasc hpos hacc hbound
      obtain ⟨d, idx⟩ := hd
      rw [faiss_loop]
      have hasc' : rest.Pairwise (fun p q => p.1 ≤ q.1) :=
        (List.pairwise_cons.mp hasc).2
      have hpos' : ∀ p ∈ rest, 0 ≤ p.1 :=
        fun p hp => hpos p (List.mem_cons_of_mem _ hp)
      have hbound' : ∀ r ∈ acc, ∀ p ∈ rest, 1 / (1 + p.1) ≤ r.2 :=
        fun r hr p hp => hbound r hr p (List.mem_cons_of_mem _ hp)
      by_cases hbreak : k ≤ acc.length
      · rw [if_pos hbreak]
        exact hacc
      · rw [if_neg hbreak]
        by_cases hex : (metadata.getD idx default).id ∈ excl
        · rw [if_pos hex]
          exact ih acc hasc' hpos' hacc hbound'
        · rw [if_neg hex]
          cases h1 : (decide (gf ≠ "")
              && decide ((metadata.getD idx default).gender ≠ gf)) with
          | true =>
              rw [if_pos rfl]
              exact ih acc hasc' hpos' hacc hbound'
          | false =>
              rw [if_neg (by simp)]
              cases h2 : (decide (af ≠ [])
                  && decide ((metadata.getD idx default).articleType ∉ af)) with
              | true =>
                  rw [if_pos rfl]
                  exact ih acc hasc' hpos' hacc hbound'
              | false =>
                  rw [if_neg (by simp)]
                  have hd0 : (0 : α) ≤ d := hpos (d, idx) (List.mem_cons_self _ _)
                  refine ih _ hasc' hpos' ?_ ?_
                  · rw [List.pairwise_append]
                    refine ⟨hacc, List.pairwise_singleton _ _, ?_⟩
                    intro a ha b hb
                    rcases List.mem_singleton.mp hb with rfl
                    exact hbound a ha (d, idx) (List.mem_cons_self _ _)
                  · intro r hr p hp
                    rcases List.mem_append.mp hr with hr' | hr'
                    · exact hbound' r hr' p hp
                    · rcases List.mem_singleton.mp hr' with rfl
                      have hdp : d ≤ p.1 :=
                        (List.pairwise_cons.mp hasc).1 p hp
                      have h1d : (0 : α) < 1 + d := by linarith
                      exact one_div_le_one_div_of_le h1d (by linarith)

end FaissLemmas

/-! ### Helper lemmas: the association-list model of Python dicts -/

section DictLemmas

variable {β : Type}

theorem cacheInsert_eq_dictInsert {α : Type} [LinearOrderedField α]
    (c : List (String × SessionData α)) (k : String) (v : SessionData α) :
    cacheInsert c k v = dictInsert c k v := rfl

theorem dictInsert_mem (c : List (String × β)) (k : String) (v : β)
    (e : String × β) (h : e ∈ dictInsert c k v) :
    e = (k, v) ∨ (e ∈ c ∧ e.1 ≠ k) := by
  unfold dictInsert at h
  by_cases hany : c.any (fun x => x.1 = k)
  · rw [if_pos hany] at h
    rcases List.mem_map.mp h with ⟨x, hx, hgx⟩
    by_cases hxk : x.1 = k
    · rw [if_pos hxk] at hgx
      exact Or.inl hgx.symm
    · rw [if_neg hxk] at hgx
      exact Or.inr ⟨hgx ▸ hx, hgx ▸ hxk⟩
  · rw [if_neg hany] at h
    rcases List.mem_append.mp h with h' | h'
    · have hall : ∀ x ∈ c, ¬ (x.1 = k) := by
        intro x hx
        by_contra hxk
        exact hany (List.any_eq_true.mpr ⟨x, hx, decide_eq_true hxk⟩)
      exact Or.inr ⟨h', hall e h'⟩
    · exact Or.inl (List.mem_singleton.mp h')

theorem lookup_map_replace_self (k : String) (v : β) :
    ∀ c : List (String × β), c.any (fun x => x.1 = k) = true →
      ((c.map (fun e => if e.1 = k then (k, v) else e)).lookup k) = some v := by
  intro c
  induction c with
  | nil => intro h; simp at h
  | cons e es ih =>
      intro h
      obtain ⟨ek, ev⟩ := e
      rw [List.map_cons]
      by_cases he : ek = k
      · rw [if_pos he]
        simp [List.lookup]
      · rw [if_neg he]
        have hne : (k == ek) = false :=
          beq_eq_false_iff_ne.mpr (fun hk => he hk.symm)
        simp only [List.lookup, hne]
        refine ih ?_
        rcases List.any_eq_true.mp h with ⟨x, hx, hpx⟩
        rcases List.mem_cons.mp hx with rfl | hx'
        · exact absurd (of_decide_eq_true hpx) he
        · exact List.any_eq_true.mpr ⟨x, hx', hpx⟩

theorem lookup_map_replace_ne (k k' : String) (v : β) (h : k' ≠ k) :
    ∀ c : List (String × β),
      ((c.map (fun e => if e.1 = k then (k, v) else e)).lookup k') = c.lookup k' := by
  intro c
  induction c with
  | nil => rfl
  | cons e es ih =>
      obtain ⟨ek, ev⟩ := e
      rw [List.map_cons]
      have h1 : (k' == k) = false := beq_eq_false_iff_ne.mpr h
      by_cases he : ek = k
      · rw [if_pos he]
        have h2 : (k' == ek) = false := by
          rw [he]
          exact h1
        simp only [List.lookup, h1, h2]
        exact ih
      · rw [if_neg he]
        simp only [List.lookup]
        cases hk : (k' == ek) with
        | true => rfl
        | false => exact ih

theorem lookup_append_single_self (k : String) (v : β) :
    ∀ c : List (String × β), (∀ x ∈ c, ¬ (x.1 = k)) →
      ((c ++ [(k, v)]).lookup k) = some v := by
  intro c
  induction c with
  | nil =>
      intro _
      simp [List.lookup]
  | cons e es ih =>
      intro hall
      obtain ⟨ek, ev⟩ := e
      rw [List.cons_append]
      have hne : (k == ek) = false :=
        beq_eq_false_iff_ne.mpr
          (fun hk => hall (ek, ev) (List.mem_cons_self _ _) hk.symm)
      simp only [List.lookup, hne]
      exact ih (fun x hx => hall x (List.mem_cons_of_mem _ hx))

theorem lookup_append_single_ne (k k' : String) (v : β) (h : k' ≠ k) :
    ∀ c : List (String × β), ((c ++ [(k, v)]).lookup k') = c.lookup k' := by
  intro c
  induction c with
  | nil =>
      simp only [List.nil_append, List.lookup]
      rw [beq_eq_false_iff_ne.mpr h]
  | cons e es ih =>
      obtain ⟨ek, ev⟩ := e
      rw [List.cons_append]
      simp only [List.lookup]
      cases hk : (k' == ek) with
      | true => rfl
      | false => exact ih

theorem dictInsert_lookup_self (c : List (String × β)) (k : String) (v : β) :
    (dictInsert c k v).lookup k = some v := by
  unfold dictInsert
  by_cases hany : c.any (fun x => x.1 = k)
  · rw [if_pos hany]
    exact lookup_map_replace_self k v c hany
  · rw [if_neg hany]
    refine lookup_append_single_self k v c ?_
    intro x hx hxk
    exact hany (List.any_eq_true.mpr ⟨x, hx, decide_eq_true hxk⟩)

theorem dictInsert_lookup_ne (c : List (String × β)) (k k' : String) (v : β)
    (h : k' ≠ k) : (dictInsert c k v).lookup k' = c.lookup k' := by
  unfold dictInsert
  by_cases hany : c.any (fun x => x.1 = k)
  · rw [if_pos hany]
    exact lookup_map_replace_ne k k' v h c
  · rw [if_neg hany]
    exact lookup_append_single_ne k k' v h c

theorem lookup_eq_none_of_all_ne (k : String) :
    ∀ c : List (String × β), (∀ e ∈ c, e.1 ≠ k) → c.lookup k = none := by
  intro c
  induction c with
  | nil => intro _; rfl
  | cons e es ih =>
      intro hall
      obtain ⟨ek, ev⟩ := e
      have hne : (k == ek) = false :=
        beq_eq_false_iff_ne.mpr
          (fun hk => hall (ek, ev) (List.mem_cons_self _ _) hk.symm)
      simp only [List.lookup, hne]
      exact ih (fun x hx => hall x (List.mem_cons_of_mem _ hx))

theorem all_ne_of_lookup_eq_none (k : String) :
    ∀ c : List (String × β), c.lookup k = none → ∀ e ∈ c, e.1 ≠ k := by
  intro c
  induction c with
  | nil => intro _ e he; simp at he
  | cons x xs ih =>
      intro h e he
      obtain ⟨xk, xv⟩ := x
      simp only [List.lookup] at h
      cases hk : (k == xk) with
      | true => rw [hk] at h; simp at h
      | false =>
          rw [hk] at h
          rcases List.mem_cons.mp he with rfl | he'
          · intro hek
            rw [show ((xk, xv) : String × β).1 = xk from rfl] at hek
            rw [hek] at hk
            simp at hk
          · exact ih h e he'

end DictLemmas

/-! ### Helper lemmas: filter facts for each strategy -/

section FilterFacts

variable {α : Type} [LinearOrderedField α]

theorem embKeep_not_excluded {excl : List String} {gf : String}
    {af : List String} {p : ProductData α}
    (h : embKeep excl gf af p = true) : p.id ∉ excl := by
  unfold embKeep at h
  simp only [Bool.and_eq_true] at h
  exact of_decide_eq_true h.1.1.1

theorem genderPass_eq_of_ne {gf : String} {p : ProductData α}
    (h : genderPass gf p = true) (hgf : gf ≠ "") : p.gender = gf := by
  unfold genderPass at h
  rw [Bool.not_eq_true'] at h
  rcases Bool.and_eq_false_iff.mp h with h' | h'
  · exact absurd hgf (of_decide_eq_false h')
  · exact not_not.mp (of_decide_eq_false h')

theorem itemPass_gender {gf : String} {af : List String}
    {x : ProductData α × α} (h : itemPass gf af x = true) (hgf : gf ≠ "") :
    x.1.gender = gf := by
  unfold itemPass at h
  rw [Bool.and_eq_true] at h
  exact genderPass_eq_of_ne h.1 hgf

theorem emb_search_excludes (hashFn : String → Nat)
    (sim : List α → List α → α) (products : List (ProductData α))
    (q : List α) (k : Nat) (excl : List String) (gf : String)
    (af : List String) (r : ProductItem α × α)
    (h : r ∈ embedding_similarity_search hashFn sim products q k excl gf af) :
    r.1.id ∉ excl := by
  rw [embedding_search_eq] at h
  rcases shapeResult_mem _ _ _ _ _ _ h with ⟨x, hx, _, rfl⟩
  rcases List.mem_map.mp hx with ⟨p, hp, rfl⟩
  exact embKeep_not_excluded (List.mem_filter.mp hp).2

theorem keyword_search_excludes (hashFn : String → Nat)
    (products : List (ProductData α)) (k : Nat) (excl : List String)
    (q : String) (gf : String) (af : List String) (r : ProductItem α × α)
    (h : r ∈ keyword_similarity_search hashFn products k excl q gf af) :
    r.1.id ∉ excl := by
  by_cases hq : q = ""
  · subst hq
    rw [keyword_search_eq_noquery] at h
    rcases List.mem_map.mp h with ⟨x, hx, rfl⟩
    have hx1 := (List.mem_filter.mp hx).1
    rcases List.mem_map.mp hx1 with ⟨p, hp, rfl⟩
    have hp1 : p ∈ products.filter (fun p => decide (p.id ∉ excl)) :=
      List.take_subset _ _ hp
    exact of_decide_eq_true (List.mem_filter.mp hp1).2
  · rw [keyword_search_eq_query _ _ _ _ _ _ _ hq] at h
    rcases shapeResult_mem _ _ _ _ _ _ h with ⟨x, hx, _, rfl⟩
    rcases List.mem_map.mp hx with ⟨p, hp, rfl⟩
    have hp1 := (List.mem_filter.mp hp).1
    exact of_decide_eq_true (List.mem_filter.mp hp1).2

theorem faiss_search_excludes (hashFn : String → Nat)
    (metadata : List (ProductData α)) (index_out : List (α × Nat)) (k : Nat)
    (excl : List String) (gf : String) (af : List String)
    (r : ProductItem α × α)
    (h : r ∈ faiss_search hashFn metadata index_out k excl gf af) :
    r.1.id ∉ excl := by
  unfold faiss_search at h
  rcases faiss_loop_mem hashFn metadata k excl gf af index_out [] r h with
    h' | ⟨d, idx, _, hid, _, _, rfl⟩
  · simp at h'
  · exact hid

theorem similarity_search_excludes (hashFn : String → Nat)
    (sim : List α → List α → α) (st : VectorServiceState α)
    (q : List α) (k : Nat) (excl : List String) (sq : String) (gf : String)
    (af : List String) (r : ProductItem α × α)
    (h : r ∈ similarity_search hashFn sim st q k excl sq gf af) :
    r.1.id ∉ excl := by
  unfold similarity_search at h
  cases hio : st.index_out? with
  | some index_out =>
      rw [hio] at h
      dsimp only at h
      by_cases hfb : st.fallback_mode
      · rw [if_pos hfb] at h
        by_cases he : st.products_with_embeddings.isEmpty
        · rw [if_neg (by simp [he])] at h
          by_cases hd : st.products_data.isEmpty
          · rw [if_neg (by simp [hd])] at h
            simp at h
          · rw [if_pos (by simp [hd])] at h
            exact keyword_search_excludes _ _ _ _ _ _ _ _ h
        · rw [if_pos (by simp [he])] at h
          exact emb_search_excludes _ _ _ _ _ _ _ _ _ h
      · rw [if_neg hfb] at h
        exact faiss_search_excludes _ _ _ _ _ _ _ _ h
  | none =>
      rw [hio] at h
      dsimp only at h
      by_cases he : st.products_with_embeddings.isEmpty
      · rw [if_neg (by simp [he])] at h
        by_cases hd : st.products_data.isEmpty
        · rw [if_neg (by simp [hd])] at h
          simp at h
        · rw [if_pos (by simp [hd])] at h
          exact keyword_search_excludes _ _ _ _ _ _ _ _ h
      · rw [if_pos (by simp [he])] at h
        exact emb_search_excludes _ _ _ _ _ _ _ _ _ h

theorem vector_get_fresh_excludes (hashFn : String → Nat)
    (sim : List α → List α → α) (st : VectorServiceState α)
    (q : List α) (excl : List String) (count : Nat) (sq : String)
    (gf : String) (af : List String) (item : ProductItem α)
    (h : item ∈ vector_get_fresh_recommendations hashFn sim st q excl count
      sq gf af) : item.id ∉ excl := by
  unfold vector_get_fresh_recommendations at h
  rcases List.mem_map.mp h with ⟨r, hr, rfl⟩
  exact similarity_search_excludes _ _ _ _ _ _ _ _ _ _ hr

end FilterFacts

/-! ### Helper lemmas: the session store -/

section SessionLemmas

variable {α : Type} [LinearOrderedField α]

theorem cleanup_of_throttled (st : RecServiceState α) (now : ℚ)
    (h : now - st.last_cleanup < cleanup_interval) :
    cleanup_expired_sessions st now = st := by
  unfold cleanup_expired_sessions
  rw [if_pos h]

theorem cleanup_of_due (st : RecServiceState α) (now : ℚ)
    (h : ¬ (now - st.last_cleanup < cleanup_interval)) :
    cleanup_expired_sessions st now =
      { session_cache := st.session_cache.filter
          (fun e => decide (now - e.2.created_at ≤ session_ttl))
        last_cleanup := now } := by
  unfold cleanup_expired_sessions
  rw [if_neg h]

theorem cleanup_mem (st : RecServiceState α) (now : ℚ) (e : String × SessionData α)
    (h : e ∈ (cleanup_expired_sessions st now).session_cache) :
    e ∈ st.session_cache := by
  unfold cleanup_expired_sessions at h
  by_cases hc : now - st.last_cleanup < cleanup_interval
  · rw [if_pos hc] at h
    exact h
  · rw [if_neg hc] at h
    exact (List.mem_filter.mp h).1

theorem cleanup_lookup_none (st : RecServiceState α) (now : ℚ) (sid : String)
    (h : st.session_cache.lookup sid = none) :
    (cleanup_expired_sessions st now).session_cache.lookup sid = none := by
  refine lookup_eq_none_of_all_ne sid _ ?_
  intro e he
  exact all_ne_of_lookup_eq_none sid _ h e (cleanup_mem st now e he)

theorem apply_interaction_dislike_mem (sd : SessionData α) (pid : String) :
    pid ∈ (apply_interaction sd pid "dislike").exclude_ids := by
  unfold apply_interaction
  rw [if_neg (by decide), if_pos rfl]
  by_cases h : pid ∈ sd.exclude_ids
  · rw [if_pos h]
    exact h
  · rw [if_neg h]
    exact List.mem_append.mpr (Or.inr (List.mem_singleton.mpr rfl))

theorem apply_interaction_inv (sd : SessionData α) (pid action : String)
    (hsd : ∀ x ∈ sd.disliked, x ∈ sd.exclude_ids) :
    ∀ x ∈ (apply_interaction sd pid action).disliked,
      x ∈ (apply_interaction sd pid action).exclude_ids := by
  unfold apply_interaction
  by_cases hl : action = "like"
  · rw [if_pos hl]
    intro x hx
    by_cases hd : pid ∈ sd.disliked
    · rw [if_pos hd] at hx
      exact hsd x (List.mem_of_mem_erase hx)
    · rw [if_neg hd] at hx
      exact hsd x hx
  · rw [if_neg hl]
    by_cases hk : action = "dislike"
    · rw [if_pos hk]
      intro x hx
      have hex : ∀ y ∈ sd.exclude_ids,
          y ∈ (if pid ∈ sd.exclude_ids then sd.exclude_ids
            else sd.exclude_ids ++ [pid]) := by
        intro y hy
        by_cases h : pid ∈ sd.exclude_ids
        · rw [if_pos h]
          exact hy
        · rw [if_neg h]
          exact List.mem_append.mpr (Or.inl hy)
      have hpid : pid ∈ (if pid ∈ sd.exclude_ids then sd.exclude_ids
          else sd.exclude_ids ++ [pid]) := by
        by_cases h : pid ∈ sd.exclude_ids
        · rw [if_pos h]
          exact h
        · rw [if_neg h]
          exact List.mem_append.mpr (Or.inr (List.mem_singleton.mpr rfl))
      by_cases hd : pid ∈ sd.disliked
      · rw [if_pos hd] at hx
        exact hex x (hsd x hx)
      · rw [if_neg hd] at hx
        rcases List.mem_append.mp hx with hx' | hx'
        · exact hex x (hsd x hx')
        · rcases List.mem_singleton.mp hx' with rfl
          exact hpid
    · rw [if_neg hk]
      by_cases hs : action = "save"
      · rw [if_pos hs]
        intro x hx
        exact hsd x hx
      · rw [if_neg hs]
        exact hsd

theorem cleanup_inv (st : RecServiceState α) (now : ℚ)
    (h : SessionInvariant st) :
    SessionInvariant (cleanup_expired_sessions st now) :=
  fun e he => h e (cleanup_mem st now e he)

theorem store_inv (st : RecServiceState α) (now : ℚ) (sid : String)
    (d : SessionData α) (hst : SessionInvariant st)
    (hd : ∀ x ∈ d.disliked, x ∈ d.exclude_ids) :
    SessionInvariant (store_session_data st now sid d) := by
  intro e he
  unfold store_session_data at he
  dsimp only at he
  rw [cacheInsert_eq_dictInsert] at he
  rcases dictInsert_mem _ _ _ _ he with rfl | ⟨he', _⟩
  · exact hd
  · exact cleanup_inv st now hst e he'

theorem get_session_inv (st : RecServiceState α) (now : ℚ) (sid : String)
    (hst : SessionInvariant st) :
    SessionInvariant (get_session_data st now sid).2 := by
  unfold get_session_data
  dsimp only
  cases hq : (cleanup_expired_sessions st now).session_cache.lookup sid with
  | none =>
      dsimp only
      exact cleanup_inv st now hst
  | some d =>
      dsimp only
      intro e he
      rw [cacheInsert_eq_dictInsert] at he
      rcases dictInsert_mem _ _ _ _ he with rfl | ⟨he', _⟩
      · have hmem : (sid, d) ∈ (cleanup_expired_sessions st now).session_cache :=
          lookup_mem _ _ _ hq
        exact cleanup_inv st now hst (sid, d) hmem
      · exact cleanup_inv st now hst e he'

theorem rec_get_fresh_inv (hashFn : String → Nat) (sim : List α → List α → α)
    (vst : VectorServiceState α) (st : RecServiceState α) (now : ℚ)
    (sid : String) (excl : List String) (count : Nat)
    (hst : SessionInvariant st) :
    SessionInvariant
      (rec_get_fresh_recommendations hashFn sim vst st now sid excl count).2 := by
  unfold rec_get_fresh_recommendations get_session_data
  dsimp only
  cases hq : (cleanup_expired_sessions st now).session_cache.lookup sid with
  | none =>
      dsimp only
      exact cleanup_inv st now hst
  | some d =>
      dsimp only
      have hd : ∀ y ∈ d.disliked, y ∈ d.exclude_ids :=
        cleanup_inv st now hst (sid, d) (lookup_mem _ _ _ hq)
      refine store_inv _ now sid _ ?_ ?_
      · intro e he
        dsimp only at he
        rw [cacheInsert_eq_dictInsert] at he
        rcases dictInsert_mem _ _ _ _ he with rfl | ⟨he', _⟩
        · exact hd
        · exact cleanup_inv st now hst e he'
      · intro x hx
        exact List.mem_dedup.mpr (List.mem_append.mpr (Or.inl (hd x hx)))

theorem rec_get_fresh_entries (hashFn : String → Nat)
    (sim : List α → List α → α) (vst : VectorServiceState α)
    (st : RecServiceState α) (now : ℚ) (sid : String) (excl : List String)
    (count : Nat) (P : String) (hP : P ∈ excl) :
    ∀ e ∈ ((rec_get_fresh_recommendations hashFn sim vst st now sid
        excl count).2).session_cache, e.1 = sid → P ∈ e.2.exclude_ids := by
  unfold rec_get_fresh_recommendations get_session_data
  dsimp only
  cases hq : (cleanup_expired_sessions st now).session_cache.lookup sid with
  | none =>
      dsimp only
      intro e he hesid
      exact absurd hesid (all_ne_of_lookup_eq_none sid _ hq e he)
  | some d =>
      dsimp only
      intro e he hesid
      unfold store_session_data at he
      dsimp only at he
      rw [cacheInsert_eq_dictInsert] at he
      rcases dictInsert_mem _ _ _ _ he with rfl | ⟨_, hne⟩
      · exact List.mem_dedup.mpr (List.mem_append.mpr (Or.inr hP))
      · exact absurd hesid hne

end SessionLemmas

/-! ### Helper lemmas: the v2 category loop -/

section V2Lemmas

variable {α : Type} [LinearOrderedField α]
variable (n : Nat)
variable (searchOutcome : String → Except String (List (ProductItem α)))
variable (enhanceOutcome : String → List (ProductItem α) → Except String (List (ProductItem α)))

theorem v2_step_categories (r : RecommendationResponseV2 α) (c : String) :
    (v2_category_step n searchOutcome enhanceOutcome r c).categories
      = dictInsert r.categories c (v2_entry n searchOutcome enhanceOutcome c) := by
  unfold v2_category_step v2_entry
  cases hs : searchOutcome c with
  | error msg => rfl
  | ok items =>
      dsimp only
      by_cases hi : (if items.isEmpty = true then []
          else match enhanceOutcome c items with
            | .ok enhanced => enhanced.take (v2_count n * 2)
            | .error _ => items.take (v2_count n * 2)).isEmpty
      · rw [if_pos hi]
      · rw [if_neg hi]

theorem v2_step_success (r : RecommendationResponseV2 α) (c : String) :
    (v2_category_step n searchOutcome enhanceOutcome r c).success = r.success := by
  unfold v2_category_step
  cases hs : searchOutcome c with
  | error msg => rfl
  | ok items =>
      dsimp only
      by_cases hi : (if items.isEmpty = true then []
          else match enhanceOutcome c items with
            | .ok enhanced => enhanced.take (v2_count n * 2)
            | .error _ => items.take (v2_count n * 2)).isEmpty
      · rw [if_pos hi]
      · rw [if_neg hi]

theorem v2_step_missing (r : RecommendationResponseV2 α) (c c' : String) :
    c' ∈ (v2_category_step n searchOutcome enhanceOutcome r c).debug_info.categories_missing
      ↔ c' ∈ r.debug_info.categories_missing
        ∨ (c' = c ∧ (v2_entry n searchOutcome enhanceOutcome c).items = []) := by
  unfold v2_category_step v2_entry
  cases hs : searchOutcome c with
  | error msg =>
      dsimp only
      rw [List.mem_append, List.mem_singleton]
      constructor
      · rintro (h | rfl)
        · exact Or.inl h
        · exact Or.inr ⟨rfl, rfl⟩
      · rintro (h | ⟨rfl, _⟩)
        · exact Or.inl h
        · exact Or.inr rfl
  | ok items =>
      dsimp only
      by_cases hi : (if items.isEmpty = true then []
          else match enhanceOutcome c items with
            | .ok enhanced => enhanced.take (v2_count n * 2)
            | .error _ => items.take (v2_count n * 2)).isEmpty
      · rw [if_pos hi]
        dsimp only
        rw [List.mem_append, List.mem_singleton]
        have hi' := List.isEmpty_iff.mp hi
        constructor
        · rintro (h | rfl)
          · exact Or.inl h
          · exact Or.inr ⟨rfl, hi'⟩
        · rintro (h | ⟨rfl, _⟩)
          · exact Or.inl h
          · exact Or.inr rfl
      · rw [if_neg hi]
        dsimp only
        constructor
        · intro h
          exact Or.inl h
        · rintro (h | ⟨rfl, hempty⟩)
          · exact h
          · exact absurd (List.isEmpty_iff.mpr hempty) hi

theorem v2_fold_lookup (c : String) :
    ∀ (cats : List String) (r : RecommendationResponseV2 α),
      (cats.foldl (v2_category_step n searchOutcome enhanceOutcome) r).categories.lookup c
        = if c ∈ cats then some (v2_entry n searchOutcome enhanceOutcome c)
          else r.categories.lookup c := by
  intro cats
  induction cats with
  | nil =>
      intro r
      rw [if_neg (by simp)]
      rfl
  | cons c' cs ih =>
      intro r
      rw [List.foldl_cons, ih]
      by_cases hcs : c ∈ cs
      · rw [if_pos hcs, if_pos (List.mem_cons_of_mem _ hcs)]
      · rw [if_neg hcs, v2_step_categories]
        by_cases hcc : c = c'
        · subst hcc
          rw [dictInsert_lookup_self, if_pos (List.mem_cons_self _ _)]
        · rw [dictInsert_lookup_ne _ _ _ _ hcc,
            if_neg (by simp [hcc, hcs])]

theorem v2_fold_success :
    ∀ (cats : List String) (r : RecommendationResponseV2 α),
      (cats.foldl (v2_category_step n searchOutcome enhanceOutcome) r).success
        = r.success := by
  intro cats
  induction cats with
  | nil => intro r; rfl
  | cons c' cs ih =>
      intro r
      rw [List.foldl_cons, ih, v2_step_success]

theorem v2_fold_missing (c : String) :
    ∀ (cats : List String) (r : RecommendationResponseV2 α),
      c ∈ (cats.foldl (v2_category_step n searchOutcome enhanceOutcome) r).debug_info.categories_missing
        ↔ c ∈ r.debug_info.categories_missing
          ∨ (c ∈ cats ∧ (v2_entry n searchOutcome enhanceOutcome c).items = []) := by
  intro cats
  induction cats with
  | nil =>
      intro r
      simp
  | cons c' cs ih =>
      intro r
      rw [List.foldl_cons, ih, v2_step_missing]
      constructor
      · rintro ((h | ⟨rfl, he⟩) | ⟨hcs, he⟩)
        · exact Or.inl h
        · exact Or.inr ⟨List.mem_cons_self _ _, he⟩
        · exact Or.inr ⟨List.mem_cons_of_mem _ hcs, he⟩
      · rintro (h | ⟨hmem, he⟩)
        · exact Or.inl (Or.inl h)
        · rcases List.mem_cons.mp hmem with rfl | hcs
          · exact Or.inl (Or.inr ⟨rfl, he⟩)
          · exact Or.inr ⟨hcs, he⟩

end V2Lemmas

/-! ### Helper lemmas: assorted -/

section AssortedHelpers

variable {α : Type} [LinearOrderedField α]

theorem pairwise_of_forall_mem {γ : Type} {R : γ → γ → Prop} :
    ∀ l : List γ, (∀ a ∈ l, ∀ b ∈ l, R a b) → l.Pairwise R := by
  intro l
  induction l with
  | nil => intro _; exact List.Pairwise.nil
  | cons x xs ih =>
      intro h
      refine List.Pairwise.cons ?_ (ih ?_)
      · intro b hb
        exact h x (List.mem_cons_self _ _) b (List.mem_cons_of_mem _ hb)
      · intro a ha b hb
        exact h a (List.mem_cons_of_mem _ ha) b (List.mem_cons_of_mem _ hb)

theorem embKeep_itemPass {excl : List String} {gf : String} {af : List String}
    {p : ProductData α} (h : embKeep excl gf af p = true) (s : α) :
    itemPass gf af (p, s) = true := by
  unfold embKeep at h
  simp only [Bool.and_eq_true] at h
  unfold itemPass
  rw [Bool.and_eq_true]
  exact ⟨h.1.2, h.2⟩

theorem kwKeep_itemPass {terms : List String} {gf : String} {af : List String}
    {p : ProductData α} (h : kwKeep terms gf af p = true) (s : α) :
    itemPass gf af (p, s) = true := by
  unfold kwKeep at h
  simp only [Bool.and_eq_true] at h
  unfold itemPass
  rw [Bool.and_eq_true]
  exact ⟨h.1.2, h.2⟩

theorem cleanup_idem (st : RecServiceState α) (now : ℚ) :
    cleanup_expired_sessions (cleanup_expired_sessions st now) now
      = cleanup_expired_sessions st now := by
  by_cases hc : now - st.last_cleanup < cleanup_interval
  · rw [cleanup_of_throttled st now hc, cleanup_of_throttled st now hc]
  · rw [cleanup_of_due st now hc]
    refine cleanup_of_throttled _ now ?_
    dsimp only
    rw [sub_self]
    unfold cleanup_interval
    norm_num

theorem get_session_data_some_inv (st : RecServiceState α) (now : ℚ)
    (sid : String) (sd : SessionData α) (hst : SessionInvariant st)
    (h : (get_session_data st now sid).1 = some sd) :
    ∀ x ∈ sd.disliked, x ∈ sd.exclude_ids := by
  unfold get_session_data at h
  dsimp only at h
  cases hq : (cleanup_expired_sessions st now).session_cache.lookup sid with
  | none =>
      rw [hq] at h
      dsimp only at h
      exact absurd h (by simp)
  | some d =>
      rw [hq] at h
      dsimp only at h
      have hd : ∀ y ∈ d.disliked, y ∈ d.exclude_ids :=
        cleanup_inv st now hst (sid, d) (lookup_mem _ _ _ hq)
      have hsd : ({ d with last_accessed := now } : SessionData α) = sd :=
        Option.some.inj h
      rw [← hsd]
      exact hd

theorem process_feedback_inv (hashFn : String → Nat)
    (sim : List α → List α → α) (vst : VectorServiceState α)
    (st : RecServiceState α) (now : ℚ) (sid pid action : String)
    (hst : SessionInvariant st) :
    SessionInvariant (process_feedback hashFn sim vst st now sid pid action).2 := by
  unfold process_feedback
  dsimp only
  have hst2 : SessionInvariant
      (match (get_session_data st now sid).1 with
        | some session_data =>
            store_session_data (get_session_data st now sid).2 now sid
              (apply_interaction session_data pid action)
        | none => (get_session_data st now sid).2) := by
    cases hg : (get_session_data st now sid).1 with
    | none =>
        exact get_session_inv st now sid hst
    | some sd =>
        refine store_inv _ now sid _ (get_session_inv st now sid hst) ?_
        exact apply_interaction_inv sd pid action
          (get_session_data_some_inv st now sid sd hst hg)
  by_cases ha : action = "dislike"
  · rw [if_pos ha]
    cases hf : (rec_get_fresh_recommendations hashFn sim vst
        (match (get_session_data st now sid).1 with
          | some session_data =>
              store_session_data (get_session_data st now sid).2 now sid
                (apply_interaction session_data pid action)
          | none => (get_session_data st now sid).2) now sid [pid] 1).1 with
    | ok items =>
        dsimp only
        exact rec_get_fresh_inv hashFn sim vst _ now sid [pid] 1 hst2
    | error msg =>
        dsimp only
        exact rec_get_fresh_inv hashFn sim vst _ now sid [pid] 1 hst2
  · rw [if_neg ha]
    exact hst2

theorem process_feedback_dislike_entries (hashFn : String → Nat)
    (sim : List α → List α → α) (vst : VectorServiceState α)
    (st : RecServiceState α) (now : ℚ) (sid P : String) :
    ∀ e ∈ ((process_feedback hashFn sim vst st now sid P "dislike").2).session_cache,
      e.1 = sid → P ∈ e.2.exclude_ids := by
  unfold process_feedback
  dsimp only
  rw [if_pos rfl]
  cases hf : (rec_get_fresh_recommendations hashFn sim vst
      (match (get_session_data st now sid).1 with
        | some session_data =>
            store_session_data (get_session_data st now sid).2 now sid
              (apply_interaction session_data P "dislike")
        | none => (get_session_data st now sid).2) now sid [P] 1) with
  | mk res st' =>
      have hent := rec_get_fresh_entries hashFn sim vst
        (match (get_session_data st now sid).1 with
          | some session_data =>
              store_session_data (get_session_data st now sid).2 now sid
                (apply_interaction session_data P "dislike")
          | none => (get_session_data st now sid).2) now sid [P] 1 P
        (List.mem_singleton.mpr rfl)
      rw [hf] at hent
      cases res with
      | ok items =>
          dsimp only
          exact hent
      | error msg =>
          dsimp only
          exact hent

end AssortedHelpers

/-! ### Helper lemmas: cosine similarity and not-found paths -/

section MoreHelpers

variable {α : Type} [LinearOrderedField α]

theorem zip_self_mul_sum : ∀ v : List ℝ,
    ((v.zip v).map (fun p => p.1 * p.2)).sum = (v.map (fun a => a * a)).sum := by
  intro v
  induction v with
  | nil => rfl
  | cons x xs ih => simp [List.zip_cons_cons, ih]

theorem sum_sq_pos : ∀ (v : List ℝ) (a : ℝ), a ∈ v → a ≠ 0 →
    0 < (v.map (fun x => x * x)).sum := by
  intro v
  induction v with
  | nil => intro a ha; simp at ha
  | cons x xs ih =>
      intro a ha hane
      rw [List.map_cons, List.sum_cons]
      have hnn : 0 ≤ (xs.map (fun x => x * x)).sum := by
        refine List.sum_nonneg ?_
        intro y hy
        rcases List.mem_map.mp hy with ⟨b, _, rfl⟩
        exact mul_self_nonneg b
      rcases List.mem_cons.mp ha with rfl | ha'
      · have h1 := mul_self_pos.mpr hane
        linarith
      · have h1 := ih a ha' hane
        have h2 := mul_self_nonneg x
        linarith

theorem get_session_data_of_none (st : RecServiceState α) (now : ℚ)
    (sid : String)
    (habs : (cleanup_expired_sessions st now).session_cache.lookup sid = none) :
    get_session_data st now sid = (none, cleanup_expired_sessions st now) := by
  unfold get_session_data
  dsimp only
  rw [habs]

theorem rec_get_fresh_of_none (hashFn : String → Nat)
    (sim : List α → List α → α) (vst : VectorServiceState α)
    (st : RecServiceState α) (now : ℚ) (sid : String) (excl : List String)
    (count : Nat)
    (habs : (cleanup_expired_sessions st now).session_cache.lookup sid = none) :
    rec_get_fresh_recommendations hashFn sim vst st now sid excl count
      = (Except.error ("Session " ++ sid ++ " not found"),
          cleanup_expired_sessions st now) := by
  unfold rec_get_fresh_recommendations get_session_data
  dsimp only
  rw [habs]

end MoreHelpers

/-! ### The claims -/

section Claims

variable {α : Type} [LinearOrderedField α]

theorem recState0_lookup_none (sid : String) :
    (cleanup_expired_sessions recState0 0).session_cache.lookup sid = none := by
  rw [cleanup_of_throttled recState0 0 (by unfold recState0 cleanup_interval; norm_num)]
  rfl

/-- C10: over the real-number idealisation of floats, the cosine
similarity of any vector with a nonzero entry against itself is exactly
`1`, and the cosine of any vector against an all-zero vector is `0`
(the zero case is returned by the division-by-zero guard, never by a
division). -/
theorem cosine_self_one_and_zero_vec_zero :
    (∀ v : List ℝ, (∃ a ∈ v, a ≠ 0) → cosine_similarity v v = 1)
    ∧ (∀ (v : List ℝ) (n : Nat),
        cosine_similarity v (List.replicate n (0 : ℝ)) = 0) := by
  constructor
  · intro v hv
    rcases hv with ⟨a, ha, hane⟩
    have hS : 0 < (v.map (fun x => x * x)).sum := sum_sq_pos v a ha hane
    unfold cosine_similarity
    rw [if_neg (by simp)]
    dsimp only
    rw [zip_self_mul_sum]
    have hsq : Real.sqrt ((v.map (fun x => x * x)).sum) ≠ 0 :=
      Real.sqrt_ne_zero'.mpr hS
    rw [if_neg (by push_neg; exact ⟨hsq, hsq⟩)]
    rw [Real.mul_self_sqrt (le_of_lt hS)]
    exact div_self (ne_of_gt hS)
  · intro v n
    unfold cosine_similarity
    by_cases hlen : v.length ≠ (List.replicate n (0 : ℝ)).length
    · rw [if_pos hlen]
    · rw [if_neg hlen]
      dsimp only
      have hmap : (List.replicate n (0 : ℝ)).map (fun b => b * b)
          = List.replicate n 0 := by
        rw [List.map_replicate]
        norm_num
      have hmag : Real.sqrt (((List.replicate n (0 : ℝ)).map
          (fun b => b * b)).sum) = 0 := by
        rw [hmap, List.sum_replicate]
        simp
      rw [if_pos (Or.inr hmag)]

/-- Witness for C10 at the concrete vector `[1]`. -/
theorem cosine_self_one_and_zero_vec_zero_witness :
    ((∃ a ∈ [(1 : ℝ)], a ≠ 0) ∧ cosine_similarity [(1 : ℝ)] [(1 : ℝ)] = 1)
    ∧ cosine_similarity [(1 : ℝ)] (List.replicate 1 (0 : ℝ)) = 0 :=
  ⟨⟨⟨1, by simp, one_ne_zero⟩,
    cosine_self_one_and_zero_vec_zero.1 [(1 : ℝ)] ⟨1, by simp, one_ne_zero⟩⟩,
   cosine_self_one_and_zero_vec_zero.2 [(1 : ℝ)] 1⟩

/-- C5: when the session id is absent from the session store (after the
lazy sweep every store access performs), `get_fresh_recommendations`
surfaces a distinct "Session ... not found" error rather than degrading
to an empty or default result. -/
theorem getfresh_missing_session_errors (hashFn : String → Nat)
    (sim : List α → List α → α) (vst : VectorServiceState α)
    (st : RecServiceState α) (now : ℚ) (sid : String) (excl : List String)
    (count : Nat)
    (habs : (cleanup_expired_sessions st now).session_cache.lookup sid = none) :
    (rec_get_fresh_recommendations hashFn sim vst st now sid excl count).1
      = Except.error ("Session " ++ sid ++ " not found") := by
  rw [rec_get_fresh_of_none hashFn sim vst st now sid excl count habs]

/-- Witness for C5: a fresh-results call for a session id that was never
stored fails with the "not found" error. -/
theorem getfresh_missing_session_errors_witness :
    ((cleanup_expired_sessions recState0 0).session_cache.lookup
        "nonexistent-session" = none)
    ∧ (rec_get_fresh_recommendations hash0 sim0 vst0 recState0 0
        "nonexistent-session" [] 1).1
      = Except.error ("Session " ++ "nonexistent-session" ++ " not found") :=
  ⟨recState0_lookup_none "nonexistent-session",
   getfresh_missing_session_errors hash0 sim0 vst0 recState0 0
     "nonexistent-session" [] 1 (recState0_lookup_none "nonexistent-session")⟩

/-- C7: the session sweep is lazy and throttled.  The throttle interval
is 300 s (five minutes); within the interval the sweep body does not run
(state unchanged); when it runs it removes exactly the sessions whose
age since creation exceeds the TTL and stamps the sweep time; both store
and read operations sweep first, so after either of them (at a due time)
no expired session remains; and once the sweep body has run, it cannot
run again until a full interval has passed. -/
theorem session_sweep_lazy_and_throttled :
    cleanup_interval = 300
    ∧ (∀ (st : RecServiceState α) (now : ℚ),
        now - st.last_cleanup < cleanup_interval →
        cleanup_expired_sessions st now = st)
    ∧ (∀ (st : RecServiceState α) (now : ℚ),
        ¬ (now - st.last_cleanup < cleanup_interval) →
        (∀ e, e ∈ (cleanup_expired_sessions st now).session_cache ↔
          e ∈ st.session_cache ∧ now - e.2.created_at ≤ session_ttl)
        ∧ (cleanup_expired_sessions st now).last_cleanup = now)
    ∧ (∀ (st : RecServiceState α) (now : ℚ) (sid : String) (d : SessionData α),
        ¬ (now - st.last_cleanup < cleanup_interval) →
        ∀ e ∈ (store_session_data st now sid d).session_cache,
          now - e.2.created_at ≤ session_ttl)
    ∧ (∀ (st : RecServiceState α) (now : ℚ) (sid : String),
        ¬ (now - st.last_cleanup < cleanup_interval) →
        ∀ e ∈ ((get_session_data st now sid).2).session_cache,
          now - e.2.created_at ≤ session_ttl)
    ∧ (∀ (st : RecServiceState α) (now t' : ℚ),
        ¬ (now - st.last_cleanup < cleanup_interval) →
        t' - now < cleanup_interval →
        cleanup_expired_sessions (cleanup_expired_sessions st now) t'
          = cleanup_expired_sessions st now) := by
  refine ⟨rfl, ?_, ?_, ?_, ?_, ?_⟩
  · intro st now h
    exact cleanup_of_throttled st now h
  · intro st now h
    rw [cleanup_of_due st now h]
    constructor
    · intro e
      rw [List.mem_filter]
      simp
    · rfl
  · intro st now sid d h
    intro e he
    unfold store_session_data at he
    dsimp only at he
    rw [cacheInsert_eq_dictInsert] at he
    rcases dictInsert_mem _ _ _ _ he with rfl | ⟨he', _⟩
    · dsimp only
      rw [sub_self]
      unfold session_ttl
      norm_num
    · rw [cleanup_of_due st now h] at he'
      have := (List.mem_filter.mp he').2
      exact of_decide_eq_true this
  · intro st now sid h
    intro e he
    unfold get_session_data at he
    dsimp only at he
    cases hq : (cleanup_expired_sessions st now).session_cache.lookup sid with
    | none =>
        rw [hq] at he
        dsimp only at he
        rw [cleanup_of_due st now h] at he
        exact of_decide_eq_true (List.mem_filter.mp he).2
    | some d =>
        rw [hq] at he
        dsimp only at he
        rw [cacheInsert_eq_dictInsert] at he
        rcases dictInsert_mem _ _ _ _ he with rfl | ⟨he', _⟩
        · have hmem : (sid, d) ∈ (cleanup_expired_sessions st now).session_cache :=
            lookup_mem _ _ _ hq
          rw [cleanup_of_due st now h] at hmem
          exact of_decide_eq_true (List.mem_filter.mp hmem).2
        · rw [cleanup_of_due st now h] at he'
          exact of_decide_eq_true (List.mem_filter.mp he').2
  · intro st now t' h ht
    refine cleanup_of_throttled _ t' ?_
    rw [cleanup_of_due st now h]
    exact ht

/-- Witness for C7 at a concrete due sweep over a one-session store. -/
theorem session_sweep_lazy_and_throttled_witness :
    (¬ ((4000 : ℚ) - recState0.last_cleanup < cleanup_interval))
    ∧ ((∀ e, e ∈ (cleanup_expired_sessions (recState0 : RecServiceState ℚ)
          4000).session_cache ↔
        e ∈ recState0.session_cache ∧ (4000 : ℚ) - e.2.created_at ≤ session_ttl)
      ∧ (cleanup_expired_sessions (recState0 : RecServiceState ℚ)
          4000).last_cleanup = 4000) :=
  ⟨by unfold recState0 cleanup_interval; norm_num,
   (session_sweep_lazy_and_throttled (α := ℚ)).2.2.1 recState0 4000
     (by unfold recState0 cleanup_interval; norm_num)⟩

/-- C8: feedback for a session id that is not in the store reports
success for each of the three actions and leaves the store unchanged
apart from the lazy sweep that every operation performs (the interaction
is not retained). -/
theorem feedback_missing_session_noop (hashFn : String → Nat)
    (sim : List α → List α → α) (vst : VectorServiceState α)
    (st : RecServiceState α) (now : ℚ) (sid pid action : String)
    (hact : action = "like" ∨ action = "dislike" ∨ action = "save")
    (habs : (cleanup_expired_sessions st now).session_cache.lookup sid = none) :
    (process_feedback hashFn sim vst st now sid pid action).1.success = true
    ∧ (process_feedback hashFn sim vst st now sid pid action).2
        = cleanup_expired_sessions st now := by
  unfold process_feedback
  rw [get_session_data_of_none st now sid habs]
  dsimp only
  by_cases ha : action = "dislike"
  · rw [if_pos ha]
    have habs2 : (cleanup_expired_sessions (cleanup_expired_sessions st now)
        now).session_cache.lookup sid = none := by
      rw [cleanup_idem]
      exact habs
    rw [rec_get_fresh_of_none hashFn sim vst _ now sid [pid] 1 habs2]
    dsimp only
    rw [cleanup_idem]
    exact ⟨rfl, rfl⟩
  · rw [if_neg ha]
    exact ⟨rfl, rfl⟩

/-- Witness for C8 with a dislike on a never-stored session id. -/
theorem feedback_missing_session_noop_witness :
    (("dislike" = "like" ∨ "dislike" = "dislike" ∨ "dislike" = "save")
      ∧ (cleanup_expired_sessions recState0 0).session_cache.lookup "ghost" = none)
    ∧ ((process_feedback hash0 sim0 vst0 recState0 0 "ghost" "42"
          "dislike").1.success = true
      ∧ (process_feedback hash0 sim0 vst0 recState0 0 "ghost" "42" "dislike").2
          = cleanup_expired_sessions recState0 0) :=
  ⟨⟨Or.inr (Or.inl rfl), recState0_lookup_none "ghost"⟩,
   feedback_missing_session_noop hash0 sim0 vst0 recState0 0 "ghost" "42"
     "dislike" (Or.inr (Or.inl rfl)) (recState0_lookup_none "ghost")⟩

/-- C1 counterexample: a Unisex record that passes the exclude and
article-type filters (both empty here) is nonetheless dropped by the
gender filter "Men" in the Mode B search — with the filter the result is
empty, without it the record is returned. -/
theorem unisex_dropped_by_gender_filter :
    embedding_similarity_search hash0 sim0 [sampleUnisex] [1] 5 [] "Men" [] = []
    ∧ embedding_similarity_search hash0 sim0 [sampleUnisex] [1] 5 [] "" [] ≠ [] := by
  constructor
  · decide
  · decide

/-- C1 (amended): when a nonempty gender filter `gf` is supplied, every
result of each of the three strategies has gender exactly `gf` — records
whose gender merely equals `Unisex` are dropped unless `gf` itself is
`Unisex`. -/
theorem gender_filter_keeps_exact_matches_only :
    (∀ (hashFn : String → Nat) (metadata : List (ProductData α))
        (index_out : List (α × Nat)) (k : Nat) (excl : List String)
        (gf : String) (af : List String) (r : ProductItem α × α), gf ≠ "" →
        r ∈ faiss_search hashFn metadata index_out k excl gf af →
        r.1.gender = gf)
    ∧ (∀ (hashFn : String → Nat) (sim : List α → List α → α)
        (products : List (ProductData α)) (q : List α) (k : Nat)
        (excl : List String) (gf : String) (af : List String)
        (r : ProductItem α × α), gf ≠ "" →
        r ∈ embedding_similarity_search hashFn sim products q k excl gf af →
        r.1.gender = gf)
    ∧ (∀ (hashFn : String → Nat) (products : List (ProductData α)) (k : Nat)
        (excl : List String) (sq : String) (gf : String) (af : List String)
        (r : ProductItem α × α), gf ≠ "" →
        r ∈ keyword_similarity_search hashFn products k excl sq gf af →
        r.1.gender = gf) := by
  refine ⟨?_, ?_, ?_⟩
  · intro hashFn metadata index_out k excl gf af r hgf h
    unfold faiss_search at h
    rcases faiss_loop_mem hashFn metadata k excl gf af index_out [] r h with
      h' | ⟨d, idx, _, _, hgp, _, rfl⟩
    · simp at h'
    · exact genderPass_eq_of_ne hgp hgf
  · intro hashFn sim products q k excl gf af r hgf h
    rw [embedding_search_eq] at h
    rcases shapeResult_mem _ _ _ _ _ _ h with ⟨x, _, hpass, rfl⟩
    exact itemPass_gender hpass hgf
  · intro hashFn products k excl sq gf af r hgf h
    by_cases hq : sq = ""
    · subst hq
      rw [keyword_search_eq_noquery] at h
      rcases List.mem_map.mp h with ⟨x, hx, rfl⟩
      exact itemPass_gender (List.mem_filter.mp hx).2 hgf
    · rw [keyword_search_eq_query _ _ _ _ _ _ _ hq] at h
      rcases shapeResult_mem _ _ _ _ _ _ h with ⟨x, _, hpass, rfl⟩
      exact itemPass_gender hpass hgf

set_option maxRecDepth 8000 in
/-- Witness for the amended C1: with filter "Men", the men's record is
returned and its gender is "Men". -/
theorem gender_filter_keeps_exact_matches_only_witness :
    (("Men" : String) ≠ ""
      ∧ toItem hash0 (sampleMen, 0) ∈
          embedding_similarity_search hash0 sim0 [sampleMen, sampleUnisex]
            [1] 5 [] "Men" [])
    ∧ (toItem hash0 (sampleMen, 0)).1.gender = "Men" :=
  ⟨⟨by decide, by decide⟩,
   gender_filter_keeps_exact_matches_only.2.1 hash0 sim0
     [sampleMen, sampleUnisex] [1] 5 [] "Men" [] (toItem hash0 (sampleMen, 0))
     (by decide) (by decide)⟩

/-- C2: in each of the three strategies, and hence in the dispatching
`similarity_search`, no returned result carries a product id from the
exclude list. -/
theorem search_never_returns_excluded :
    (∀ (hashFn : String → Nat) (metadata : List (ProductData α))
        (index_out : List (α × Nat)) (k : Nat) (excl : List String)
        (gf : String) (af : List String) (r : ProductItem α × α),
        r ∈ faiss_search hashFn metadata index_out k excl gf af →
        r.1.id ∉ excl)
    ∧ (∀ (hashFn : String → Nat) (sim : List α → List α → α)
        (products : List (ProductData α)) (q : List α) (k : Nat)
        (excl : List String) (gf : String) (af : List String)
        (r : ProductItem α × α),
        r ∈ embedding_similarity_search hashFn sim products q k excl gf af →
        r.1.id ∉ excl)
    ∧ (∀ (hashFn : String → Nat) (products : List (ProductData α)) (k : Nat)
        (excl : List String) (q : String) (gf : String) (af : List String)
        (r : ProductItem α × α),
        r ∈ keyword_similarity_search hashFn products k excl q gf af →
        r.1.id ∉ excl)
    ∧ (∀ (hashFn : String → Nat) (sim : List α → List α → α)
        (st : VectorServiceState α) (q : List α) (k : Nat)
        (excl : List String) (sq : String) (gf : String) (af : List String)
        (r : ProductItem α × α),
        r ∈ similarity_search hashFn sim st q k excl sq gf af →
        r.1.id ∉ excl) :=
  ⟨faiss_search_excludes, emb_search_excludes, keyword_search_excludes,
    similarity_search_excludes⟩

set_option maxRecDepth 8000 in
/-- Witness for C2: with exclude list `["2"]`, the returned men's record
("1") is not excluded. -/
theorem search_never_returns_excluded_witness :
    (toItem hash0 (sampleMen, 0) ∈
      embedding_similarity_search hash0 sim0 [sampleMen, sampleUnisex]
        [1] 5 ["2"] "" [])
    ∧ (toItem hash0 (sampleMen, 0)).1.id ∉ ["2"] :=
  ⟨by decide,
   search_never_returns_excluded.2.1 hash0 sim0 [sampleMen, sampleUnisex]
     [1] 5 ["2"] "" [] (toItem hash0 (sampleMen, 0)) (by decide)⟩

/-- C4 counterexample: `_faiss_search` performs no in-repo sort, so with
a tied index output in reversed row order the two results carry the same
score `1/(1+0)` but their ids come out `["3", "1"]` — the reverse of
catalog insertion order (`"1"` is metadata row 0, `"3"` row 1).  Hence
the original claim's equal-score tie-break fails for the VectorIndex
strategy. -/
theorem faiss_tie_order_counterexample :
    faiss_search hash0 [sampleMen, sampleMen2]
        [((0 : ℚ), 1), ((0 : ℚ), 0)] 5 [] "" []
      = [(create_product_item hash0 sampleMen2 (1 / (1 + 0)), 1 / (1 + 0)),
         (create_product_item hash0 sampleMen (1 / (1 + 0)), 1 / (1 + 0))]
    ∧ ¬ List.Sublist
        ((faiss_search hash0 [sampleMen, sampleMen2]
          [((0 : ℚ), 1), ((0 : ℚ), 0)] 5 [] "" []).map (fun r => r.1.id))
        ([sampleMen, sampleMen2].map (fun p => p.id)) := by
  have h : faiss_search hash0 [sampleMen, sampleMen2]
      [((0 : ℚ), 1), ((0 : ℚ), 0)] 5 [] "" []
      = [(create_product_item hash0 sampleMen2 (1 / (1 + 0)), 1 / (1 + 0)),
         (create_product_item hash0 sampleMen (1 / (1 + 0)), 1 / (1 + 0))] :=
    rfl
  refine ⟨h, ?_⟩
  rw [h]
  decide

/-- C4 (amended): every strategy returns results sorted by nonincreasing
similarity score — for Mode A under the external index interface
guarantee that the returned distances are nonnegative and nondecreasing
— and in the strategies that sort in-repo (Modes B and C) the results of
any fixed score appear in catalog insertion order: their ids form an
order-preserving subsequence of the catalog's id sequence.  Mode A does
not sort in-repo: its result order, ties included, is the index's output
order, which need not respect catalog insertion order. -/
theorem search_results_sorted_stable :
    (∀ (hashFn : String → Nat) (metadata : List (ProductData α))
        (index_out : List (α × Nat)) (k : Nat) (excl : List String)
        (gf : String) (af : List String),
        index_out.Pairwise (fun p q => p.1 ≤ q.1) →
        (∀ p ∈ index_out, 0 ≤ p.1) →
        (faiss_search hashFn metadata index_out k excl gf af).Pairwise
          (fun a b => b.2 ≤ a.2))
    ∧ (∀ (hashFn : String → Nat) (sim : List α → List α → α)
        (products : List (ProductData α)) (q : List α) (k : Nat)
        (excl : List String) (gf : String) (af : List String),
        (embedding_similarity_search hashFn sim products q k excl gf af).Pairwise
          (fun a b => b.2 ≤ a.2)
        ∧ ∀ s : α, List.Sublist
            (((embedding_similarity_search hashFn sim products q k excl gf
              af).filter (fun r => r.2 = s)).map (fun r => r.1.id))
            (products.map (fun p => p.id)))
    ∧ (∀ (hashFn : String → Nat) (products : List (ProductData α)) (k : Nat)
        (excl : List String) (q : String) (gf : String) (af : List String),
        q ≠ "" →
        (keyword_similarity_search hashFn products k excl q gf af).Pairwise
          (fun a b => b.2 ≤ a.2)
        ∧ ∀ s : α, List.Sublist
            (((keyword_similarity_search hashFn products k excl q gf
              af).filter (fun r => r.2 = s)).map (fun r => r.1.id))
            (products.map (fun p => p.id)))
    ∧ (∀ (hashFn : String → Nat) (products : List (ProductData α)) (k : Nat)
        (excl : List String) (gf : String) (af : List String),
        (keyword_similarity_search hashFn products k excl "" gf af).Pairwise
          (fun a b => b.2 ≤ a.2)
        ∧ ∀ s : α, List.Sublist
            (((keyword_similarity_search hashFn products k excl "" gf
              af).filter (fun r => r.2 = s)).map (fun r => r.1.id))
            (products.map (fun p => p.id))) := by
  refine ⟨?_, ?_, ?_, ?_⟩
  · intro hashFn metadata index_out k excl gf af hasc hpos
    unfold faiss_search
    refine faiss_loop_sorted hashFn metadata k excl gf af index_out [] hasc
      hpos List.Pairwise.nil ?_
    intro r hr
    simp at hr
  · intro hashFn sim products q k excl gf af
    constructor
    · rw [embedding_search_eq]
      exact shapeResult_pairwise _ _ _ _ _
    · intro s
      rw [embedding_search_eq]
      refine (shapeResult_tie hashFn gf af k _ s).trans ?_
      rw [List.map_map]
      exact List.Sublist.map _ (List.filter_sublist _)
  · intro hashFn products k excl q gf af hq
    constructor
    · rw [keyword_search_eq_query _ _ _ _ _ _ _ hq]
      exact shapeResult_pairwise _ _ _ _ _
    · intro s
      rw [keyword_search_eq_query _ _ _ _ _ _ _ hq]
      refine (shapeResult_tie hashFn gf af k _ s).trans ?_
      rw [List.map_map]
      exact List.Sublist.map _
        ((List.filter_sublist _).trans (List.filter_sublist _))
  · intro hashFn products k excl gf af
    constructor
    · rw [keyword_search_eq_noquery]
      refine pairwise_of_forall_mem _ ?_
      intro a ha b hb
      have hs : ∀ c ∈ ((((products.filter
          (fun p => decide (p.id ∉ excl))).take k).map
          (fun p => (p, (1 : α) / 2))).filter (itemPass gf af)).map
          (toItem hashFn), c.2 = (1 : α) / 2 := by
        intro c hc
        rcases List.mem_map.mp hc with ⟨x, hx, rfl⟩
        have hx1 := (List.mem_filter.mp hx).1
        rcases List.mem_map.mp hx1 with ⟨p, _, rfl⟩
        rfl
      rw [hs a ha, hs b hb]
    · intro s
      rw [keyword_search_eq_noquery, List.filter_map, List.map_map,
        List.filter_map, List.filter_map, List.map_map]
      exact List.Sublist.map _
        ((((List.filter_sublist _).trans (List.filter_sublist _)).trans
          (List.take_sublist _ _)).trans (List.filter_sublist _))

/-- Witness for C4: a Mode A call with ascending nonnegative distances
yields a descending-score result. -/
theorem search_results_sorted_stable_witness :
    (([((0 : ℚ), 0), ((1 : ℚ), 1)]).Pairwise (fun p q => p.1 ≤ q.1)
      ∧ (∀ p ∈ [((0 : ℚ), 0), ((1 : ℚ), 1)], 0 ≤ p.1))
    ∧ (faiss_search hash0 [sampleMen, sampleMen2]
        [((0 : ℚ), 0), ((1 : ℚ), 1)] 5 [] "" []).Pairwise
        (fun a b => b.2 ≤ a.2) :=
  ⟨⟨by decide, by decide⟩,
   search_results_sorted_stable.1 hash0 [sampleMen, sampleMen2]
     [((0 : ℚ), 0), ((1 : ℚ), 1)] 5 [] "" [] (by decide) (by decide)⟩

set_option maxRecDepth 8000 in
/-- C9 counterexample: with `k = 2`, one eligible record (it passes the
exclude, gender and article-type filters) and a search query matching no
record, the keyword search returns the empty list instead of all
eligible records. -/
theorem fewer_than_k_eligible_counterexample :
    keyword_similarity_search hash0 [sampleMen] 2 [] "zzz" "" [] = []
    ∧ ([sampleMen].filter (eligibleKeep [] "" [])).length = 1 := by
  constructor
  · decide
  · decide

/-- C9 (amended): every strategy returns at most `k` results and never
pads or errors.  When fewer than `k` records survive the filters:
EmbeddingSimilarity returns exactly the eligible records carrying a
nonempty embedding; KeywordMatch with a query returns exactly the
eligible records with a positive text-match score; KeywordMatch without
a query returns exactly the eligible records among the first `k`
non-excluded records. -/
theorem search_returns_at_most_k :
    (∀ (hashFn : String → Nat) (metadata : List (ProductData α))
        (index_out : List (α × Nat)) (k : Nat) (excl : List String)
        (gf : String) (af : List String),
        (faiss_search hashFn metadata index_out k excl gf af).length ≤ k)
    ∧ (∀ (hashFn : String → Nat) (sim : List α → List α → α)
        (products : List (ProductData α)) (q : List α) (k : Nat)
        (excl : List String) (gf : String) (af : List String),
        (embedding_similarity_search hashFn sim products q k excl gf
          af).length ≤ k
        ∧ ((products.filter (embKeep excl gf af)).length ≤ k →
            List.Perm
              ((embedding_similarity_search hashFn sim products q k excl gf
                af).map (fun r => r.1.id))
              ((products.filter (embKeep excl gf af)).map (fun p => p.id))))
    ∧ (∀ (hashFn : String → Nat) (products : List (ProductData α)) (k : Nat)
        (excl : List String) (q : String) (gf : String) (af : List String),
        q ≠ "" →
        (keyword_similarity_search hashFn products k excl q gf af).length ≤ k
        ∧ (((products.filter (fun p => decide (p.id ∉ excl))).filter
              (kwKeep (pySplit (pyToLower q)) gf af)).length ≤ k →
            List.Perm
              ((keyword_similarity_search hashFn products k excl q gf
                af).map (fun r => r.1.id))
              (((products.filter (fun p => decide (p.id ∉ excl))).filter
                (kwKeep (pySplit (pyToLower q)) gf af)).map (fun p => p.id))))
    ∧ (∀ (hashFn : String → Nat) (products : List (ProductData α)) (k : Nat)
        (excl : List String) (gf : String) (af : List String),
        (keyword_similarity_search hashFn products k excl "" gf af).length ≤ k
        ∧ (keyword_similarity_search hashFn products k excl "" gf af).map
            (fun r => r.1.id)
          = (((products.filter (fun p => decide (p.id ∉ excl))).take k).filter
              (fun p => genderPass gf p && articlePass af p)).map
              (fun p => p.id)) := by
  refine ⟨?_, ?_, ?_, ?_⟩
  · intro hashFn metadata index_out k excl gf af
    unfold faiss_search
    exact faiss_loop_length hashFn metadata k excl gf af index_out []
      (Nat.zero_le k)
  · intro hashFn sim products q k excl gf af
    constructor
    · rw [embedding_search_eq]
      exact shapeResult_length _ _ _ _ _
    · intro hlen
      rw [embedding_search_eq]
      have hperm := shapeResult_perm hashFn gf af k
        ((products.filter (embKeep excl gf af)).map
          (fun p => (p, sim q (embOf p))))
        (by
          intro x hx
          rcases List.mem_map.mp hx with ⟨p, hp, rfl⟩
          exact embKeep_itemPass (List.mem_filter.mp hp).2 _)
        (by rw [List.length_map]; exact hlen)
      rw [List.map_map] at hperm
      exact hperm
  · intro hashFn products k excl q gf af hq
    constructor
    · rw [keyword_search_eq_query _ _ _ _ _ _ _ hq]
      exact shapeResult_length _ _ _ _ _
    · intro hlen
      rw [keyword_search_eq_query _ _ _ _ _ _ _ hq]
      have hperm := shapeResult_perm hashFn gf af k
        (((products.filter (fun p => decide (p.id ∉ excl))).filter
          (kwKeep (pySplit (pyToLower q)) gf af)).map
          (fun p => (p, calculate_text_similarity p (pySplit (pyToLower q)))))
        (by
          intro x hx
          rcases List.mem_map.mp hx with ⟨p, hp, rfl⟩
          exact kwKeep_itemPass (List.mem_filter.mp hp).2 _)
        (by rw [List.length_map]; exact hlen)
      rw [List.map_map] at hperm
      exact hperm
  · intro hashFn products k excl gf af
    constructor
    · rw [keyword_search_eq_noquery, List.length_map]
      refine le_trans (List.length_filter_le _ _) ?_
      rw [List.length_map, List.length_take]
      exact min_le_left _ _
    · rw [keyword_search_eq_noquery, List.map_map, List.filter_map,
        List.map_map]
      rfl

set_option maxRecDepth 8000 in
/-- Witness for the amended C9: one eligible embedded record and `k = 5`
— the search returns exactly that record. -/
theorem search_returns_at_most_k_witness :
    (([sampleMen].filter (embKeep [] "" [])).length ≤ 5)
    ∧ List.Perm
        ((embedding_similarity_search hash0 sim0 [sampleMen] [1] 5 [] ""
          []).map (fun r => r.1.id))
        (([sampleMen].filter (embKeep [] "" [])).map (fun p => p.id)) :=
  ⟨by decide,
   (search_returns_at_most_k.2.1 hash0 sim0 [sampleMen] [1] 5 [] "" []).2
     (by decide)⟩

/-- C3: the invariant `excludeIds ⊇ interactions.disliked` is preserved
by session creation, by feedback processing, and by a fresh-results
call; and after a dislike of product `P` on any session, an immediately
following fresh-results call for that session never returns `P`. -/
theorem disliked_always_excluded :
    (∀ (st : RecServiceState α) (now : ℚ) (sid : String) (q : List α)
        (sq : String) (excl : List String) (g : String) (ats : List String)
        (recs : List (ProductItem α)), SessionInvariant st →
        SessionInvariant (create_session st now sid q sq excl g ats recs))
    ∧ (∀ (hashFn : String → Nat) (sim : List α → List α → α)
        (vst : VectorServiceState α) (st : RecServiceState α) (now : ℚ)
        (sid pid action : String), SessionInvariant st →
        SessionInvariant
          (process_feedback hashFn sim vst st now sid pid action).2)
    ∧ (∀ (hashFn : String → Nat) (sim : List α → List α → α)
        (vst : VectorServiceState α) (st : RecServiceState α) (now : ℚ)
        (sid : String) (excl : List String) (count : Nat),
        SessionInvariant st →
        SessionInvariant
          (rec_get_fresh_recommendations hashFn sim vst st now sid excl
            count).2)
    ∧ (∀ (hashFn : String → Nat) (sim : List α → List α → α)
        (vst : VectorServiceState α) (st : RecServiceState α) (now now' : ℚ)
        (sid P : String) (excl' : List String) (count : Nat)
        (items : List (ProductItem α)),
        (rec_get_fresh_recommendations hashFn sim vst
          (process_feedback hashFn sim vst st now sid P "dislike").2
          now' sid excl' count).1 = Except.ok items →
        ∀ it ∈ items, it.id ≠ P) := by
  refine ⟨?_, ?_, ?_, ?_⟩
  · intro st now sid q sq excl g ats recs hst
    unfold create_session
    refine store_inv st now sid _ hst ?_
    intro x hx
    simp at hx
  · intro hashFn sim vst st now sid pid action hst
    exact process_feedback_inv hashFn sim vst st now sid pid action hst
  · intro hashFn sim vst st now sid excl count hst
    exact rec_get_fresh_inv hashFn sim vst st now sid excl count hst
  · intro hashFn sim vst st now now' sid P excl' count items hok it hit
    have hent := process_feedback_dislike_entries hashFn sim vst st now sid P
    unfold rec_get_fresh_recommendations get_session_data at hok
    dsimp only at hok
    cases hq : (cleanup_expired_sessions
        (process_feedback hashFn sim vst st now sid P "dislike").2
        now').session_cache.lookup sid with
    | none =>
        rw [hq] at hok
        dsimp only at hok
        exact absurd hok (by simp)
    | some d =>
        rw [hq] at hok
        dsimp only at hok
        have hitems := Except.ok.inj hok
        rw [← hitems] at hit
        have hnotin := vector_get_fresh_excludes _ _ _ _ _ _ _ _ _ it hit
        have hdP : P ∈ d.exclude_ids := by
          have hmem : (sid, d) ∈
              ((process_feedback hashFn sim vst st now sid P
                "dislike").2).session_cache :=
            cleanup_mem _ now' (sid, d) (lookup_mem _ _ _ hq)
          exact hent (sid, d) hmem rfl
        have hP : P ∈ (({ d with last_accessed := now' } :
            SessionData α).exclude_ids ++ excl').dedup :=
          List.mem_dedup.mpr (List.mem_append.mpr (Or.inl hdP))
        intro heq
        rw [heq] at hnotin
        exact hnotin hP

set_option maxRecDepth 8000 in
/-- Witness for C3: feedback on the empty store preserves the invariant. -/
theorem disliked_always_excluded_witness :
    SessionInvariant (recState0 : RecServiceState ℚ)
    ∧ SessionInvariant
        (process_feedback hash0 sim0 vst0 recState0 0 "S1" "42"
          "dislike").2 :=
  ⟨by intro e he; simp [recState0] at he,
   (disliked_always_excluded (α := ℚ)).2.1 hash0 sim0 vst0 recState0 0 "S1"
     "42" "dislike" (by intro e he; simp [recState0] at he)⟩

/-- C6: for a nonempty category-partitioned (v2) request, the response
succeeds; every requested category key is present in the categories
dict; a category whose search raised reports the empty `CategoryResult`
and is recorded in `categories_missing`; and any present category whose
item list is empty is recorded in `categories_missing`. -/
theorem v2_guaranteed_category_structure (cats : List String) (n : Nat)
    (sid : String)
    (searchOutcome : String → Except String (List (ProductItem α)))
    (enhanceOutcome : String → List (ProductItem α) →
      Except String (List (ProductItem α)))
    (hne : cats ≠ []) :
    (get_recommendations_v2 cats n sid searchOutcome
      enhanceOutcome).success = true
    ∧ (∀ c ∈ cats, ((get_recommendations_v2 cats n sid searchOutcome
        enhanceOutcome).categories.lookup c).isSome)
    ∧ (∀ c ∈ cats, ∀ msg, searchOutcome c = Except.error msg →
        (get_recommendations_v2 cats n sid searchOutcome
          enhanceOutcome).categories.lookup c
          = some { items := [], total_available := 0, requested_count := v2_count n }
        ∧ c ∈ (get_recommendations_v2 cats n sid searchOutcome
            enhanceOutcome).debug_info.categories_missing)
    ∧ (∀ c ∈ cats, ∀ entry,
        (get_recommendations_v2 cats n sid searchOutcome
          enhanceOutcome).categories.lookup c = some entry →
        entry.items = [] →
        c ∈ (get_recommendations_v2 cats n sid searchOutcome
          enhanceOutcome).debug_info.categories_missing) := by
  unfold get_recommendations_v2
  rw [if_neg (by simpa [List.isEmpty_iff] using hne)]
  dsimp only
  refine ⟨?_, ?_, ?_, ?_⟩
  · rw [v2_fold_success]
  · intro c hc
    rw [v2_fold_lookup, if_pos hc]
    rfl
  · intro c hc msg hmsg
    constructor
    · rw [v2_fold_lookup, if_pos hc]
      unfold v2_entry
      rw [hmsg]
    · rw [v2_fold_missing]
      refine Or.inr ⟨hc, ?_⟩
      unfold v2_entry
      rw [hmsg]
  · intro c hc entry hentry hempty
    rw [v2_fold_lookup, if_pos hc] at hentry
    rw [v2_fold_missing]
    refine Or.inr ⟨hc, ?_⟩
    have := Option.some.inj hentry
    rw [this, hempty]

/-- Witness for C6: a two-category request where the search for
"Tshirts" raises — both keys are present, "Tshirts" maps to the empty
result and is recorded as missing, and the request succeeds. -/
theorem v2_guaranteed_category_structure_witness :
    ((["Jeans", "Tshirts"] : List String) ≠ []
      ∧ "Tshirts" ∈ (["Jeans", "Tshirts"] : List String)
      ∧ (fun c => if c = "Tshirts" then Except.error "boom"
          else Except.ok [create_product_item hash0 sampleMen (1 : ℚ)]) "Tshirts"
          = Except.error "boom")
    ∧ ((get_recommendations_v2 ["Jeans", "Tshirts"] 0 "S"
        (fun c => if c = "Tshirts" then Except.error "boom"
          else Except.ok [create_product_item hash0 sampleMen (1 : ℚ)])
        (fun _ l => Except.ok l)).categories.lookup "Tshirts"
        = some { items := [], total_available := 0, requested_count := v2_count 0 }
      ∧ "Tshirts" ∈ (get_recommendations_v2 ["Jeans", "Tshirts"] 0 "S"
          (fun c => if c = "Tshirts" then Except.error "boom"
            else Except.ok [create_product_item hash0 sampleMen (1 : ℚ)])
          (fun _ l => Except.ok l)).debug_info.categories_missing) :=
  ⟨⟨by decide, by decide, by rfl⟩,
   (v2_guaranteed_category_structure ["Jeans", "Tshirts"] 0 "S"
      (fun c => if c = "Tshirts" then Except.error "boom"
        else Except.ok [create_product_item hash0 sampleMen (1 : ℚ)])
      (fun _ l => Except.ok l) (by decide)).2.2.1 "Tshirts" (by decide)
      "boom" (by rfl)⟩

end Claims
